import Mathlib

/-!
Shallow embedding of the openshift machine-api-provider-aws reconciliation
code (tag construction, instance launch request building, placement-group
controller, machineset scale-from-zero annotations) together with proofs of
the behavioral properties stated about it.

Go pointers are modelled with `Option`; Go `(value, error)` returns are
modelled with `Except` when the value is never consulted on error, and with
an explicit pair when the Go code inspects the value even in the presence of
an error (the AWS SDK contract returns a non-nil output struct).
-/

namespace AwsProvider

/-- `ec2.Tag` (pointer fields are always set by this codebase, so plain strings). -/
structure Ec2Tag where
  key : String
  value : String
deriving Repr, DecidableEq

/-- `machinev1beta1.TagSpecification`. -/
structure TagSpecification where
  name : String
  value : String
deriving Repr, DecidableEq

/-- `configv1.AWSResourceTag` from the infrastructure platform status. -/
structure AWSResourceTag where
  key : String
  value : String
deriving Repr, DecidableEq

/-- The slice of `configv1.Infrastructure` that the tag code consults.
`resourceTags = none` models the Go nil-chain
`infra.Status.PlatformStatus == nil || infra.Status.PlatformStatus.AWS == nil || ... ResourceTags == nil`. -/
structure Infrastructure where
  infrastructureName : String
  resourceTags : Option (List AWSResourceTag)
deriving Repr, DecidableEq

/-- Go `strings.HasPrefix s pre` (byte-level check; coincides with
character-level for the ASCII literals used by this code). -/
def stringsHasPref (s pre : String) : Bool :=
  pre.data.isPrefixOf s.data

/-- Worker for `removeDuplicatedTags`: `seen` is the key set of the Go map `m`. -/
def removeDupAux (seen : List String) : List Ec2Tag → List Ec2Tag
  | [] => []
  | t :: ts =>
    if t.key ∈ seen then removeDupAux seen ts
    else t :: removeDupAux (t.key :: seen) ts

/-- `removeDuplicatedTags` (pkg/actuators/machine): scan machine tags and
return a deduped tags list; the first found value gets precedence. -/
def removeDuplicatedTags (tags : List Ec2Tag) : List Ec2Tag :=
  removeDupAux [] tags

/-- `mergeInfrastructureAndMachineSpecTags`: machine tags have precedence over
infrastructure (they come first in the merged list). -/
def mergeInfrastructureAndMachineSpecTags (machineSpecTags : List TagSpecification)
    (infra : Option Infrastructure) : List TagSpecification :=
  match infra with
  | none => machineSpecTags
  | some i =>
    match i.resourceTags with
    | none => machineSpecTags
    | some rtags =>
      machineSpecTags ++ rtags.map (fun tag => ⟨tag.key, tag.value⟩)

/-- `buildTagList`: compile a list of ec2 tags from machine provider spec and
infrastructure object platform spec. The Go loop that fills `rawTagList` is
the filter+map; the reserved pair is appended afterwards and the whole list
deduplicated. -/
def buildTagList (machineName clusterID : String)
    (machineTags : List TagSpecification) (infra : Option Infrastructure) : List Ec2Tag :=
  removeDuplicatedTags
    ((((mergeInfrastructureAndMachineSpecTags machineTags infra).filter
        (fun tag => !(stringsHasPref tag.name "kubernetes.io/cluster/") && tag.name != "Name")).map
        (fun tag => (⟨tag.name, tag.value⟩ : Ec2Tag))) ++
      [⟨"kubernetes.io/cluster/" ++ clusterID, "owned"⟩, ⟨"Name", machineName⟩])

section RemoveDupLemmas

theorem removeDupAux_subset {seen : List String} {ts : List Ec2Tag} {t : Ec2Tag}
    (h : t ∈ removeDupAux seen ts) : t ∈ ts := by
  induction ts generalizing seen with
  | nil => simp [removeDupAux] at h
  | cons x xs ih =>
    rw [removeDupAux] at h
    split at h
    · exact List.mem_cons_of_mem _ (ih h)
    · rcases List.mem_cons.mp h with h | h
      · exact h ▸ List.mem_cons_self _ _
      · exact List.mem_cons_of_mem _ (ih h)

theorem removeDupAux_key_not_seen {seen : List String} {ts : List Ec2Tag} {t : Ec2Tag}
    (h : t ∈ removeDupAux seen ts) : t.key ∉ seen := by
  induction ts generalizing seen with
  | nil => simp [removeDupAux] at h
  | cons x xs ih =>
    rw [removeDupAux] at h
    split at h
    · exact ih h
    · rcases List.mem_cons.mp h with h | h
      · subst h; assumption
      · intro hk
        exact ih h (List.mem_cons_of_mem _ hk)

theorem removeDupAux_keys_nodup (seen : List String) (ts : List Ec2Tag) :
    ((removeDupAux seen ts).map (fun t => t.key)).Nodup := by
  induction ts generalizing seen with
  | nil => simp [removeDupAux]
  | cons x xs ih =>
    rw [removeDupAux]
    split
    · exact ih seen
    · simp only [List.map_cons, List.nodup_cons]
      refine ⟨?_, ih (x.key :: seen)⟩
      intro hmem
      rcases List.mem_map.mp hmem with ⟨u, hu, hku⟩
      exact removeDupAux_key_not_seen hu (hku ▸ List.mem_cons_self _ _)

theorem removeDupAux_find (seen : List String) (ts : List Ec2Tag) {k : String}
    (hk : k ∉ seen) :
    (removeDupAux seen ts).find? (fun t => t.key == k) = ts.find? (fun t => t.key == k) := by
  induction ts generalizing seen with
  | nil => simp [removeDupAux]
  | cons x xs ih =>
    rw [removeDupAux]
    by_cases hx : x.key ∈ seen
    · rw [if_pos hx]
      have hne : (x.key == k) = false := by
        simp only [beq_eq_false_iff_ne, ne_eq]
        intro h; exact hk (h ▸ hx)
      rw [List.find?_cons, hne, ih seen hk]
    · rw [if_neg hx]
      by_cases hxk : x.key = k
      · simp [List.find?_cons, hxk]
      · have hne : (x.key == k) = false := by
          simp only [beq_eq_false_iff_ne, ne_eq]; exact hxk
        rw [List.find?_cons, hne, List.find?_cons, hne]
        refine ih _ ?_
        intro h
        rcases List.mem_cons.mp h with h | h
        · exact hxk h.symm
        · exact hk h

theorem removeDupAux_append_pair {seen : List String} (xs : List Ec2Tag) (r1 r2 : Ec2Tag)
    (h1s : r1.key ∉ seen) (h2s : r2.key ∉ seen)
    (h1x : ∀ t ∈ xs, t.key ≠ r1.key) (h2x : ∀ t ∈ xs, t.key ≠ r2.key)
    (h12 : r1.key ≠ r2.key) :
    removeDupAux seen (xs ++ [r1, r2]) = removeDupAux seen xs ++ [r1, r2] := by
  induction xs generalizing seen with
  | nil =>
    simp only [List.nil_append, removeDupAux]
    rw [if_neg h1s, if_neg (by
      intro h
      rcases List.mem_cons.mp h with h | h
      · exact h12 h.symm
      · exact h2s h)]
  | cons x xs ih =>
    simp only [List.cons_append, removeDupAux]
    by_cases hx : x.key ∈ seen
    · rw [if_pos hx, if_pos hx]
      exact ih h1s h2s (fun t ht => h1x t (List.mem_cons_of_mem _ ht))
        (fun t ht => h2x t (List.mem_cons_of_mem _ ht))
    · rw [if_neg hx, if_neg hx, List.cons_append]
      congr 1
      refine ih ?_ ?_ (fun t ht => h1x t (List.mem_cons_of_mem _ ht))
        (fun t ht => h2x t (List.mem_cons_of_mem _ ht))
      · intro h
        rcases List.mem_cons.mp h with h | h
        · exact h1x x (List.mem_cons_self _ _) h.symm
        · exact h1s h
      · intro h
        rcases List.mem_cons.mp h with h | h
        · exact h2x x (List.mem_cons_self _ _) h.symm
        · exact h2s h

theorem find?_filter_of_imp {α : Type} {p q : α → Bool} (l : List α)
    (h : ∀ t, q t = true → p t = true) :
    (l.filter p).find? q = l.find? q := by
  induction l with
  | nil => simp
  | cons x xs ih =>
    by_cases hq : q x = true
    · rw [List.filter_cons, if_pos (h x hq), List.find?_cons, hq, List.find?_cons, hq]
    · have hq' : q x = false := by
        cases hqx : q x
        · rfl
        · exact absurd hqx hq
      rw [List.find?_cons, hq']
      by_cases hp : p x = true
      · rw [List.filter_cons, if_pos hp, List.find?_cons, hq', ih]
      · rw [List.filter_cons, if_neg hp, ih]

theorem find?_eq_of_mem_nodup_keys {l : List Ec2Tag} {t : Ec2Tag}
    (hmem : t ∈ l) (hnodup : (l.map (fun t => t.key)).Nodup) :
    l.find? (fun u => u.key == t.key) = some t := by
  induction l with
  | nil => simp at hmem
  | cons x xs ih =>
    simp only [List.map_cons, List.nodup_cons] at hnodup
    rcases List.mem_cons.mp hmem with h | h
    · subst h
      rw [List.find?_cons, beq_self_eq_true]
    · have hne : (x.key == t.key) = false := by
        simp only [beq_eq_false_iff_ne, ne_eq]
        intro hkey
        exact hnodup.1 (hkey ▸ List.mem_map.mpr ⟨t, h, rfl⟩)
      rw [List.find?_cons, hne]
      exact ih h hnodup.2

end RemoveDupLemmas

theorem stringsHasPref_append (pre rest : String) :
    stringsHasPref (pre ++ rest) pre = true := by
  unfold stringsHasPref
  rw [String.data_append]
  exact List.isPrefixOf_iff_prefix.mpr (List.prefix_append _ _)

theorem removeDup_append_reserved_spec (front : List Ec2Tag) (r1 r2 : Ec2Tag)
    (h1x : ∀ t ∈ front, t.key ≠ r1.key) (h2x : ∀ t ∈ front, t.key ≠ r2.key)
    (h12 : r1.key ≠ r2.key) :
    removeDuplicatedTags (front ++ [r1, r2]) = removeDupAux [] front ++ [r1, r2] ∧
    ((removeDuplicatedTags (front ++ [r1, r2])).map (fun t => t.key)).Nodup ∧
    (∀ t ∈ removeDuplicatedTags (front ++ [r1, r2]), t.key ≠ r1.key → t.key ≠ r2.key →
      front.find? (fun u => u.key == t.key) = some t) ∧
    (∀ s ∈ front, ∃ u ∈ removeDuplicatedTags (front ++ [r1, r2]), u.key = s.key) := by
  have hdef : ∀ l, removeDuplicatedTags l = removeDupAux [] l := fun _ => rfl
  have hsplit : removeDuplicatedTags (front ++ [r1, r2]) = removeDupAux [] front ++ [r1, r2] := by
    rw [hdef]
    exact removeDupAux_append_pair front r1 r2 (List.not_mem_nil _) (List.not_mem_nil _)
      h1x h2x h12
  refine ⟨hsplit, ?_, ?_, ?_⟩
  · rw [hdef]
    exact removeDupAux_keys_nodup [] (front ++ [r1, r2])
  · intro t ht h1 h2
    have hnodup : ((removeDuplicatedTags (front ++ [r1, r2])).map (fun t => t.key)).Nodup := by
      rw [hdef]
      exact removeDupAux_keys_nodup [] (front ++ [r1, r2])
    have hout : (removeDuplicatedTags (front ++ [r1, r2])).find? (fun u => u.key == t.key)
        = some t := find?_eq_of_mem_nodup_keys ht hnodup
    have hfull : (front ++ [r1, r2]).find? (fun u => u.key == t.key) = some t := by
      rw [← removeDupAux_find [] (front ++ [r1, r2]) (List.not_mem_nil _), ← hdef]
      exact hout
    rw [List.find?_append] at hfull
    have e1 : (r1.key == t.key) = false := beq_eq_false_iff_ne.mpr (fun h => h1 h.symm)
    have e2 : (r2.key == t.key) = false := beq_eq_false_iff_ne.mpr (fun h => h2 h.symm)
    have hr : ([r1, r2].find? (fun u => u.key == t.key)) = none := by
      simp [List.find?_cons, e1, e2]
    cases hcase : front.find? (fun u => u.key == t.key) with
    | none =>
      rw [hcase, hr] at hfull
      exact hfull
    | some u =>
      rw [hcase] at hfull
      exact hfull
  · intro s hs
    have hfullFind : ((front ++ [r1, r2]).find? (fun u => u.key == s.key)).isSome := by
      rw [List.find?_isSome]
      exact ⟨s, List.mem_append_left _ hs, beq_self_eq_true _⟩
    rw [← removeDupAux_find [] (front ++ [r1, r2]) (List.not_mem_nil _)] at hfullFind
    cases hcase : (removeDupAux [] (front ++ [r1, r2])).find? (fun u => u.key == s.key) with
    | none => rw [hcase] at hfullFind; simp at hfullFind
    | some u =>
      refine ⟨u, ?_, ?_⟩
      · rw [hdef]
        exact List.mem_of_find?_eq_some hcase
      · have hp := List.find?_some hcase
        simpa using hp

/-- C1: `buildTagList` merges machine and infrastructure tags, keeps only the
first occurrence of each duplicated key, drops user tags whose key is `Name`
or starts with `kubernetes.io/cluster/`, and appends the two reserved tags
`kubernetes.io/cluster/<clusterID>=owned` and `Name=<machineName>` last, so the
reserved pair always appears in the output with exactly those values. -/
theorem buildTagList_spec (machineName clusterID : String)
    (machineTags : List TagSpecification) (infra : Option Infrastructure) :
    (∃ front, buildTagList machineName clusterID machineTags infra =
        front ++ [⟨"kubernetes.io/cluster/" ++ clusterID, "owned"⟩, ⟨"Name", machineName⟩] ∧
      ∀ t ∈ front,
        stringsHasPref t.key "kubernetes.io/cluster/" = false ∧ t.key ≠ "Name") ∧
    ((buildTagList machineName clusterID machineTags infra).map (fun t => t.key)).Nodup ∧
    (∀ t ∈ buildTagList machineName clusterID machineTags infra,
      stringsHasPref t.key "kubernetes.io/cluster/" = false → t.key ≠ "Name" →
      ((mergeInfrastructureAndMachineSpecTags machineTags infra).map
        (fun tag => (⟨tag.name, tag.value⟩ : Ec2Tag))).find? (fun u => u.key == t.key) = some t) ∧
    (∀ tag ∈ mergeInfrastructureAndMachineSpecTags machineTags infra,
      stringsHasPref tag.name "kubernetes.io/cluster/" = false → tag.name ≠ "Name" →
      ∃ u ∈ buildTagList machineName clusterID machineTags infra, u.key = tag.name) := by
  have hprefName : stringsHasPref "Name" "kubernetes.io/cluster/" = false := by decide
  have hr1pref :
      stringsHasPref ("kubernetes.io/cluster/" ++ clusterID) "kubernetes.io/cluster/" = true :=
    stringsHasPref_append _ _
  have hfrontProp : ∀ t ∈ (((mergeInfrastructureAndMachineSpecTags machineTags infra).filter
        (fun tag => !(stringsHasPref tag.name "kubernetes.io/cluster/") && tag.name != "Name")).map
        (fun tag => (⟨tag.name, tag.value⟩ : Ec2Tag))),
      stringsHasPref t.key "kubernetes.io/cluster/" = false ∧ t.key ≠ "Name" := by
    intro t ht
    rcases List.mem_map.mp ht with ⟨tag, htag, hmap⟩
    have hcond := List.of_mem_filter htag
    simp only [Bool.and_eq_true, Bool.not_eq_true', bne_iff_ne, ne_eq] at hcond
    rw [← hmap]
    exact ⟨hcond.1, hcond.2⟩
  have h1x : ∀ t ∈ (((mergeInfrastructureAndMachineSpecTags machineTags infra).filter
        (fun tag => !(stringsHasPref tag.name "kubernetes.io/cluster/") && tag.name != "Name")).map
        (fun tag => (⟨tag.name, tag.value⟩ : Ec2Tag))),
      t.key ≠ (Ec2Tag.mk ("kubernetes.io/cluster/" ++ clusterID) "owned").key := by
    intro t ht h
    have hf := (hfrontProp t ht).1
    simp only at h
    rw [h, hr1pref] at hf
    exact Bool.noConfusion hf
  have h2x : ∀ t ∈ (((mergeInfrastructureAndMachineSpecTags machineTags infra).filter
        (fun tag => !(stringsHasPref tag.name "kubernetes.io/cluster/") && tag.name != "Name")).map
        (fun tag => (⟨tag.name, tag.value⟩ : Ec2Tag))),
      t.key ≠ (Ec2Tag.mk "Name" machineName).key := by
    intro t ht
    exact (hfrontProp t ht).2
  have h12 : (Ec2Tag.mk ("kubernetes.io/cluster/" ++ clusterID) "owned").key
      ≠ (Ec2Tag.mk "Name" machineName).key := by
    simp only [ne_eq]
    intro h
    rw [h, hprefName] at hr1pref
    exact Bool.noConfusion hr1pref
  obtain ⟨hsplit, hnodup, hfind, hext⟩ := removeDup_append_reserved_spec
    (((mergeInfrastructureAndMachineSpecTags machineTags infra).filter
        (fun tag => !(stringsHasPref tag.name "kubernetes.io/cluster/") && tag.name != "Name")).map
        (fun tag => (⟨tag.name, tag.value⟩ : Ec2Tag)))
    (Ec2Tag.mk ("kubernetes.io/cluster/" ++ clusterID) "owned")
    (Ec2Tag.mk "Name" machineName) h1x h2x h12
  refine ⟨⟨_, hsplit, ?_⟩, hnodup, ?_, ?_⟩
  · intro t ht
    exact hfrontProp t (removeDupAux_subset ht)
  · intro t ht hp hn
    have h1 : t.key ≠ (Ec2Tag.mk ("kubernetes.io/cluster/" ++ clusterID) "owned").key := by
      simp only [ne_eq]
      intro h
      rw [h, hr1pref] at hp
      exact Bool.noConfusion hp
    have hfr := hfind t ht h1 hn
    have himp : ∀ tag : TagSpecification,
        ((fun u : Ec2Tag => u.key == t.key) ∘
          (fun tag : TagSpecification => (⟨tag.name, tag.value⟩ : Ec2Tag))) tag = true →
        (!(stringsHasPref tag.name "kubernetes.io/cluster/") && tag.name != "Name") = true := by
      intro tag htag
      have hname : tag.name = t.key := beq_iff_eq.mp htag
      simp only [Bool.and_eq_true, Bool.not_eq_true', bne_iff_ne, ne_eq]
      exact ⟨by rw [hname]; exact hp, by rw [hname]; exact hn⟩
    rw [List.find?_map, find?_filter_of_imp _ himp] at hfr
    rw [List.find?_map]
    exact hfr
  · intro tag htag hp hn
    have hmem : (⟨tag.name, tag.value⟩ : Ec2Tag) ∈
        (((mergeInfrastructureAndMachineSpecTags machineTags infra).filter
          (fun tag => !(stringsHasPref tag.name "kubernetes.io/cluster/") && tag.name != "Name")).map
          (fun tag => (⟨tag.name, tag.value⟩ : Ec2Tag))) := by
      refine List.mem_map.mpr ⟨tag, List.mem_filter.mpr ⟨htag, ?_⟩, rfl⟩
      simp only [Bool.and_eq_true, Bool.not_eq_true', bne_iff_ne, ne_eq]
      exact ⟨hp, hn⟩
    obtain ⟨u, hu, hku⟩ := hext _ hmem
    exact ⟨u, hu, hku⟩

theorem buildTagList_spec_witness :
    ((buildTagList "mach" "cid" [⟨"K", "a"⟩, ⟨"K", "b"⟩, ⟨"Other", "x"⟩] none).map
      (fun t => t.key)).Nodup :=
  (buildTagList_spec "mach" "cid" [⟨"K", "a"⟩, ⟨"K", "b"⟩, ⟨"Other", "x"⟩] none).2.1

/-- Error values returned by this code: `mapierrors.InvalidMachineConfiguration`,
`mapierrors.CreateMachine`, and plain `errors.New` / `fmt.Errorf` errors. -/
inductive MachineError where
  | invalidConfiguration (msg : String)
  | createMachine (msg : String)
  | generic (msg : String)
deriving Repr, DecidableEq

/-- `machinev1beta1.SpotMarketOptions`. -/
structure SpotMarketOptions where
  maxPrice : Option String
deriving Repr, DecidableEq

/-- `ec2.SpotMarketOptions` as placed in the launch request. -/
structure Ec2SpotMarketOptions where
  instanceInterruptionBehavior : Option String
  spotInstanceType : Option String
  maxPrice : Option String
deriving Repr, DecidableEq

/-- `ec2.InstanceMarketOptionsRequest`. -/
structure InstanceMarketOptionsRequest where
  marketType : Option String
  spotOptions : Option Ec2SpotMarketOptions
deriving Repr, DecidableEq

/-- `machinev1beta1.MarketTypeOnDemand`. -/
def marketTypeOnDemand : String := "OnDemand"

/-- `machinev1beta1.MarketTypeSpot`. -/
def marketTypeSpot : String := "Spot"

/-- `machinev1beta1.MarketTypeCapacityBlock`. -/
def marketTypeCapacityBlock : String := "CapacityBlock"

/-- `ec2.MarketTypeSpot`. -/
def ec2MarketTypeSpot : String := "spot"

/-- `ec2.MarketTypeCapacityBlock`. -/
def ec2MarketTypeCapacityBlock : String := "capacity-block"

/-- `ec2.InstanceInterruptionBehaviorTerminate`. -/
def ec2InstanceInterruptionBehaviorTerminate : String := "terminate"

/-- `ec2.SpotInstanceTypeOneTime`. -/
def ec2SpotInstanceTypeOneTime : String := "one-time"

/-- `machinev1beta1.Filter`. -/
structure MachineFilter where
  name : String
  values : List String
deriving Repr, DecidableEq

/-- `machinev1beta1.AWSResourceReference` (`Filters = none` models a nil slice,
which `getSecurityGroupsIDs` distinguishes from an empty one). -/
structure AWSResourceReference where
  id : Option String
  arn : Option String
  filters : Option (List MachineFilter)
deriving Repr, DecidableEq

/-- `machinev1beta1.EBSBlockDeviceSpec`. -/
structure EBSBlockDeviceSpec where
  volumeSize : Option Int
  volumeType : Option String
  iops : Option Int
  encrypted : Option Bool
  kmsKey : AWSResourceReference
deriving Repr, DecidableEq

/-- `machinev1beta1.BlockDeviceMappingSpec`. -/
structure BlockDeviceMappingSpec where
  deviceName : Option String
  ebs : Option EBSBlockDeviceSpec
deriving Repr, DecidableEq

/-- `machinev1beta1.Placement` of the provider config. -/
structure PlacementSpec where
  region : String
  availabilityZone : String
  tenancy : String
deriving Repr, DecidableEq

/-- `machinev1beta1.MetadataServiceOptions`. -/
structure MetadataServiceOptions where
  authentication : String
deriving Repr, DecidableEq

/-- The slice of `machinev1beta1.AWSMachineProviderConfig` consulted by the
instance launcher. -/
structure AWSMachineProviderConfig where
  ami : AWSResourceReference
  instanceType : String
  tags : List TagSpecification
  iamInstanceProfile : Option AWSResourceReference
  keyName : Option String
  deviceIndex : Int
  publicIP : Option Bool
  networkInterfaceType : String
  securityGroups : List AWSResourceReference
  subnet : AWSResourceReference
  placement : PlacementSpec
  blockDevices : List BlockDeviceMappingSpec
  spotMarketOptions : Option SpotMarketOptions
  metadataServiceOptions : MetadataServiceOptions
  placementGroupName : String
  placementGroupPartition : Option Int
  capacityReservationID : String
  marketType : String
deriving Repr, DecidableEq

/-- `getInstanceMarketOptionsRequest`. The Go code mutates
`providerConfig.MarketType` in place when inferring; here the inferred value is
a local binding, which yields the same returned value. `aws.StringValue` on the
spot max price is modelled as `""` when absent. -/
def getInstanceMarketOptionsRequest (providerConfig : AWSMachineProviderConfig) :
    Except MachineError (Option InstanceMarketOptionsRequest) :=
  if providerConfig.marketType != "" && providerConfig.marketType == marketTypeCapacityBlock
      && providerConfig.spotMarketOptions.isSome then
    .error (.generic "can't create spot capacity-blocks, remove spot market request")
  else
    -- Infer MarketType if not explicitly set
    let marketType :=
      if providerConfig.spotMarketOptions.isSome && providerConfig.marketType == "" then
        marketTypeSpot
      else
        providerConfig.marketType
    let marketType := if marketType == "" then marketTypeOnDemand else marketType
    if marketType == marketTypeCapacityBlock then
      if providerConfig.capacityReservationID == "" then
        .error (.generic "capacityReservationID is required when CapacityBlock is enabled")
      else
        .ok (some { marketType := some ec2MarketTypeCapacityBlock, spotOptions := none })
    else if marketType == marketTypeSpot then
      -- Set required values for Spot instances: terminate on interruption and
      -- one-time requests keep the 1:1 mapping of Machines to Instances.
      let maxPrice :=
        (providerConfig.spotMarketOptions.map (fun o => o.maxPrice.getD "")).getD ""
      .ok (some
        { marketType := some ec2MarketTypeSpot
          spotOptions := some
            { instanceInterruptionBehavior := some ec2InstanceInterruptionBehaviorTerminate
              spotInstanceType := some ec2SpotInstanceTypeOneTime
              maxPrice := if maxPrice != "" then some maxPrice else none } })
    else if marketType == marketTypeOnDemand then
      -- Instance is on-demand or empty
      .ok none
    else
      .error (.generic ("invalid MarketType \"" ++ marketType ++ "\""))

/-- Character class `[0-9a-f]` of the capacity-reservation ID regex. -/
def isLowerHexChar (c : Char) : Bool :=
  c.isDigit || ('a' ≤ c && c ≤ 'f')

/-- The compiled regex `cr-` followed by exactly 17 lowercase-hex characters,
anchored at both ends (`regexp.MustCompile` + `MatchString` in the Go code). -/
def matchCapacityReservationID (s : String) : Bool :=
  match s.data with
  | 'c' :: 'r' :: '-' :: rest => rest.length == 17 && rest.all isLowerHexChar
  | _ => false

/-- `ec2.CapacityReservationTarget`. -/
structure CapacityReservationTarget where
  capacityReservationId : Option String
deriving Repr, DecidableEq

/-- `ec2.CapacityReservationSpecification`. -/
structure CapacityReservationSpecification where
  capacityReservationTarget : CapacityReservationTarget
deriving Repr, DecidableEq

/-- `getCapacityReservationSpecification`. -/
def getCapacityReservationSpecification (capacityReservationID : String) :
    Except MachineError (Option CapacityReservationSpecification) :=
  if capacityReservationID == "" then
    -- Not targeting any specific Capacity Reservation
    .ok none
  else if !(matchCapacityReservationID capacityReservationID) then
    .error (.invalidConfiguration
      ("Invalid value for capacityReservationId: \"" ++ capacityReservationID ++
        "\", it must start with 'cr-' and be exactly 20 characters long with 17 hexadecimal characters."))
  else
    .ok (some { capacityReservationTarget := { capacityReservationId := some capacityReservationID } })

/-- C2: spot options present with market type unset yield a spot request with
terminate interruption behavior, one-time spot type and no max price when the
configured max price is empty; no spot options with market type unset defaults
to on-demand and produces no market options. -/
theorem getInstanceMarketOptionsRequest_spec (pc : AWSMachineProviderConfig) :
    (∀ o, pc.spotMarketOptions = some o → pc.marketType = "" → o.maxPrice.getD "" = "" →
      getInstanceMarketOptionsRequest pc = .ok (some
        { marketType := some "spot"
          spotOptions := some
            { instanceInterruptionBehavior := some "terminate"
              spotInstanceType := some "one-time"
              maxPrice := none } })) ∧
    (pc.spotMarketOptions = none → pc.marketType = "" →
      getInstanceMarketOptionsRequest pc = .ok none) := by
  constructor
  · intro o hspot hmt hmax
    simp [getInstanceMarketOptionsRequest, hspot, hmt, hmax, marketTypeSpot,
      marketTypeCapacityBlock, marketTypeOnDemand, ec2MarketTypeSpot,
      ec2InstanceInterruptionBehaviorTerminate, ec2SpotInstanceTypeOneTime]
  · intro hspot hmt
    simp [getInstanceMarketOptionsRequest, hspot, hmt, marketTypeSpot,
      marketTypeCapacityBlock, marketTypeOnDemand]

/-- Witness for C2: concrete configs exercising both conjuncts. -/
theorem getInstanceMarketOptionsRequest_spec_witness :
    getInstanceMarketOptionsRequest
      { ami := ⟨none, none, none⟩, instanceType := "m4.large", tags := []
        iamInstanceProfile := none, keyName := none, deviceIndex := 0, publicIP := none
        networkInterfaceType := "", securityGroups := [], subnet := ⟨none, none, none⟩
        placement := ⟨"r", "", ""⟩, blockDevices := [], spotMarketOptions := some ⟨none⟩
        metadataServiceOptions := ⟨""⟩, placementGroupName := "", placementGroupPartition := none
        capacityReservationID := "", marketType := "" } = .ok (some
      { marketType := some "spot"
        spotOptions := some
          { instanceInterruptionBehavior := some "terminate"
            spotInstanceType := some "one-time"
            maxPrice := none } }) :=
  (getInstanceMarketOptionsRequest_spec _).1 ⟨none⟩ rfl rfl rfl

/-- C3: an empty capacity-reservation ID yields no capacity-reservation
specification and no error; a non-empty ID failing the `cr-` + 17 lowercase hex
pattern yields an `InvalidConfiguration` error; a matching ID yields a target
referencing exactly that ID. -/
theorem getCapacityReservationSpecification_spec (id : String) :
    (id = "" → getCapacityReservationSpecification id = .ok none) ∧
    (id ≠ "" → matchCapacityReservationID id = false →
      ∃ msg, getCapacityReservationSpecification id = .error (.invalidConfiguration msg)) ∧
    (matchCapacityReservationID id = true →
      getCapacityReservationSpecification id =
        .ok (some { capacityReservationTarget := { capacityReservationId := some id } })) := by
  refine ⟨?_, ?_, ?_⟩
  · intro h
    simp [getCapacityReservationSpecification, h]
  · intro hne hmatch
    refine ⟨"Invalid value for capacityReservationId: \"" ++ id ++
      "\", it must start with 'cr-' and be exactly 20 characters long with 17 hexadecimal characters.", ?_⟩
    simp [getCapacityReservationSpecification, hne, hmatch]
  · intro hmatch
    have hne : id ≠ "" := by
      intro h
      rw [h] at hmatch
      exact Bool.noConfusion hmatch
    simp [getCapacityReservationSpecification, hne, hmatch]

/-- Witness for C3: the spec's own examples — empty ID, `cr-1234` (too short),
`cr-B234a67891234567A` (uppercase), `cr-1234a6789d234f6f4` (valid). -/
theorem getCapacityReservationSpecification_spec_witness :
    getCapacityReservationSpecification "" = .ok none ∧
    (∃ msg, getCapacityReservationSpecification "cr-1234" =
      .error (.invalidConfiguration msg)) ∧
    (∃ msg, getCapacityReservationSpecification "cr-B234a67891234567A" =
      .error (.invalidConfiguration msg)) ∧
    getCapacityReservationSpecification "cr-1234a6789d234f6f4" =
      .ok (some { capacityReservationTarget :=
        { capacityReservationId := some "cr-1234a6789d234f6f4" } }) :=
  ⟨(getCapacityReservationSpecification_spec "").1 rfl,
    (getCapacityReservationSpecification_spec "cr-1234").2.1 (by decide) (by decide),
    (getCapacityReservationSpecification_spec "cr-B234a67891234567A").2.1
      (by decide) (by decide),
    (getCapacityReservationSpecification_spec "cr-1234a6789d234f6f4").2.2 (by decide)⟩

/-- `metav1.Condition` (the fields this controller sets). -/
structure Condition where
  type : String
  status : String
  reason : String
  message : String
deriving Repr, DecidableEq

/-- `meta.SetStatusCondition`: update the condition with the same type in
place, or append a new one. -/
def setStatusCondition (conds : List Condition) (c : Condition) : List Condition :=
  if conds.any (fun x => x.type == c.type) then
    conds.map (fun x => if x.type == c.type then c else x)
  else
    conds ++ [c]

/-- `machinev1.ManagedManagementState`. -/
def managedManagementState : String := "Managed"

/-- `machinev1.UnmanagedManagementState`. -/
def unmanagedManagementState : String := "Unmanaged"

/-- `machinev1.AWSClusterPlacementGroupType`. -/
def awsClusterPlacementGroupType : String := "Cluster"

/-- `machinev1.AWSPartitionPlacementGroupType`. -/
def awsPartitionPlacementGroupType : String := "Partition"

/-- `machinev1.AWSSpreadPlacementGroupType`. -/
def awsSpreadPlacementGroupType : String := "Spread"

/-- `machinev1.AWSPartitionPlacement`. -/
structure AWSPartitionPlacement where
  count : Int
deriving Repr, DecidableEq

/-- `machinev1.ManagedAWSPlacementGroup` (also the shape of the status
`ObservedConfiguration`). -/
structure ManagedAWSPlacementGroup where
  groupType : String
  partition : Option AWSPartitionPlacement
deriving Repr, DecidableEq

/-- `machinev1.AWSPlacementGroupManagementSpec`. -/
structure AWSPlacementGroupManagementSpec where
  managementState : String
  managed : Option ManagedAWSPlacementGroup
deriving Repr, DecidableEq

/-- The slice of `machinev1.AWSPlacementGroupSpec` the controller consults. -/
structure AWSPlacementGroupSpec where
  managementSpec : AWSPlacementGroupManagementSpec
deriving Repr, DecidableEq

/-- The slice of `machinev1.AWSPlacementGroupStatus` the controller consults. -/
structure AWSPlacementGroupStatus where
  managementState : String
  observedConfiguration : ManagedAWSPlacementGroup
  conditions : List Condition
deriving Repr, DecidableEq

/-- `machinev1.AWSPlacementGroup`. -/
structure AWSPlacementGroup where
  name : String
  spec : AWSPlacementGroupSpec
  status : AWSPlacementGroupStatus
deriving Repr, DecidableEq

/-- `validateAWSPlacementGroup`: complementary validation to fail early in case
of lacking webhook validation. A `some` result is the returned Go error. -/
def validateAWSPlacementGroup (pg : AWSPlacementGroup) : Option String :=
  if !(pg.spec.managementSpec.managementState == managedManagementState
      || pg.spec.managementSpec.managementState == unmanagedManagementState) then
    some ("invalid aws placement group. spec.managementSpec.managementState must either be "
      ++ managedManagementState ++ " or " ++ unmanagedManagementState)
  else if pg.spec.managementSpec.managementState == managedManagementState
      && pg.spec.managementSpec.managed.isNone then
    some ("invalid aws placement group. spec.managementSpec.managed must not be nil when spec.managementSpec.managementState is "
      ++ managedManagementState)
  -- A Managed placement group may be moved to Unmanaged, however an Unmanaged
  -- group may not be moved back to Managed.
  else if pg.spec.managementSpec.managementState == managedManagementState
      && pg.status.managementState == unmanagedManagementState then
    some ("invalid aws placement group. spec.managementSpec.managementState cannot be set to "
      ++ managedManagementState ++ " once it has been set to " ++ unmanagedManagementState)
  else
    match pg.spec.managementSpec.managed with
    | none => none
    | some managed =>
      if !(managed.groupType == awsClusterPlacementGroupType
          || managed.groupType == awsPartitionPlacementGroupType
          || managed.groupType == awsSpreadPlacementGroupType) then
        some ("invalid aws placement group. spec.managementSpec.managed.groupType must either be "
          ++ awsClusterPlacementGroupType ++ ", " ++ awsPartitionPlacementGroupType ++ " or "
          ++ awsSpreadPlacementGroupType)
      else
        match managed.partition with
        | none => none
        | some partition =>
          if partition.count < 1 || partition.count > 7 then
            some "invalid aws placement group. spec.managementSpec.managed.partition.count must be greater or equal than 1 and less or equal than 7"
          else
            none

/-- C6: an AWSPlacementGroup whose status records `Unmanaged` fails validation
when the spec sets the management state back to `Managed`, so the
Managed-to-Unmanaged transition is one-way (the reconciler returns without
acting on an object that fails validation). -/
theorem validateAWSPlacementGroup_unmanaged_oneway (pg : AWSPlacementGroup)
    (hstatus : pg.status.managementState = unmanagedManagementState)
    (hspec : pg.spec.managementSpec.managementState = managedManagementState) :
    (validateAWSPlacementGroup pg).isSome = true := by
  cases hm : pg.spec.managementSpec.managed <;>
    simp [validateAWSPlacementGroup, hstatus, hspec, hm,
      managedManagementState, unmanagedManagementState]

/-- Witness for C6 at a concrete placement group. -/
theorem validateAWSPlacementGroup_unmanaged_oneway_witness :
    (validateAWSPlacementGroup
      { name := "pg1"
        spec := { managementSpec :=
          { managementState := "Managed"
            managed := some { groupType := "Spread", partition := none } } }
        status :=
          { managementState := "Unmanaged"
            observedConfiguration := { groupType := "", partition := none }
            conditions := [] } }).isSome = true :=
  validateAWSPlacementGroup_unmanaged_oneway _ rfl rfl

/-- `awserr` errors: `statusCode = some c` models an `awserr.RequestFailure`
with that HTTP status code, `none` a plain error. -/
structure AwsError where
  statusCode : Option Nat
  message : String
deriving Repr, DecidableEq

/-- `isAWS4xxError`: an AWS request failure with a 4xx status code. -/
def isAWS4xxError (err : AwsError) : Bool :=
  match err.statusCode with
  | some code => decide (400 ≤ code) && decide (code < 500)
  | none => false

/-- The Go pattern `err != nil && !isAWS4xxError(err)` on an optional error. -/
def errNonNilAndNot4xx (err : Option AwsError) : Bool :=
  match err with
  | some e => !(isAWS4xxError e)
  | none => false

/-- `ec2.Filter`. -/
structure Ec2Filter where
  name : String
  values : List String
deriving Repr, DecidableEq

/-- `ec2.TagSpecification`. -/
structure Ec2TagSpecification where
  resourceType : String
  tags : List Ec2Tag
deriving Repr, DecidableEq

/-- `ec2.PlacementGroup`. -/
structure PlacementGroup where
  groupName : Option String
  groupId : Option String
  strategy : Option String
  partitionCount : Option Int
  tags : List Ec2Tag
deriving Repr, DecidableEq

/-- `ec2.DescribePlacementGroupsInput`. -/
structure DescribePlacementGroupsInput where
  groupNames : List String
deriving Repr, DecidableEq

/-- `ec2.DescribePlacementGroupsOutput`. -/
structure DescribePlacementGroupsOutput where
  placementGroups : List PlacementGroup
deriving Repr, DecidableEq

/-- `ec2.InstanceState` (the Go code dereferences the `State` pointer of each
instance unconditionally). -/
structure Ec2InstanceState where
  name : Option String
deriving Repr, DecidableEq

/-- The slice of `ec2.Instance` the placement-group controller consults. -/
structure PGInstance where
  state : Ec2InstanceState
deriving Repr, DecidableEq

/-- `ec2.Reservation` as returned by `DescribeInstances`. -/
structure PGReservation where
  instances : List PGInstance
deriving Repr, DecidableEq

/-- `ec2.DescribeInstancesInput`. -/
structure DescribeInstancesInput where
  filters : List Ec2Filter
deriving Repr, DecidableEq

/-- `ec2.DescribeInstancesOutput`. -/
structure DescribeInstancesOutput where
  reservations : List PGReservation
deriving Repr, DecidableEq

/-- `ec2.CreatePlacementGroupInput` (`SetStrategy` / `SetPartitionCount` fill
the optional fields). -/
structure CreatePlacementGroupInput where
  groupName : String
  tagSpecifications : List Ec2TagSpecification
  strategy : Option String
  partitionCount : Option Int
deriving Repr, DecidableEq

/-- `ec2.CreatePlacementGroupOutput`. -/
structure CreatePlacementGroupOutput where
  placementGroup : PlacementGroup
deriving Repr, DecidableEq

/-- `ec2.DeletePlacementGroupInput`. -/
structure DeletePlacementGroupInput where
  groupName : String
deriving Repr, DecidableEq

/-- The cloud client facade used by the placement-group controller.
`describePlacementGroups` returns the Go-style `(output, error)` pair because
the code inspects the output even when a 4xx error is reported (the AWS SDK
returns a non-nil output struct); the other calls return early on error, so
`Except` models them. -/
structure PGClient where
  describePlacementGroups : DescribePlacementGroupsInput →
    DescribePlacementGroupsOutput × Option AwsError
  describeInstances : DescribeInstancesInput → Except AwsError DescribeInstancesOutput
  createPlacementGroup : CreatePlacementGroupInput → Except AwsError CreatePlacementGroupOutput
  deletePlacementGroup : DeletePlacementGroupInput → Except AwsError Unit

/-- `mergeInfrastructureAndAWSPlacementGroupSpecTags` (identical shape to the
machine-package merge: spec tags first, then infrastructure tags). -/
def mergeInfrastructureAndAWSPlacementGroupSpecTags
    (awsPlacementGroupSpecTags : List TagSpecification)
    (infra : Option Infrastructure) : List TagSpecification :=
  match infra with
  | none => awsPlacementGroupSpecTags
  | some i =>
    match i.resourceTags with
    | none => awsPlacementGroupSpecTags
    | some rtags =>
      awsPlacementGroupSpecTags ++ rtags.map (fun tag => ⟨tag.key, tag.value⟩)

/-- `buildPlacementGroupTagList`: same construction as `buildTagList`, with the
cluster ID read from `infra.Status.InfrastructureName`. -/
def buildPlacementGroupTagList (awsPlacementGroup : String)
    (awsPlacementGroupSpecTags : List TagSpecification) (infra : Infrastructure) : List Ec2Tag :=
  removeDuplicatedTags
    ((((mergeInfrastructureAndAWSPlacementGroupSpecTags awsPlacementGroupSpecTags
          (some infra)).filter
        (fun tag => !(stringsHasPref tag.name "kubernetes.io/cluster/") && tag.name != "Name")).map
        (fun tag => (⟨tag.name, tag.value⟩ : Ec2Tag))) ++
      [⟨"kubernetes.io/cluster/" ++ infra.infrastructureName, "owned"⟩,
        ⟨"Name", awsPlacementGroup⟩])

/-- The nested Go loop in `deletePlacementGroup` counting instances whose state
is not `terminated`. -/
def nonTerminatedInstanceCount (result : DescribeInstancesOutput) : Nat :=
  result.reservations.foldl
    (fun acc r =>
      r.instances.foldl
        (fun acc2 i => if i.state.name.getD "" != "terminated" then acc2 + 1 else acc2) acc)
    0

/-- `deletePlacementGroup` (the controller helper): delete the cloud placement
group for the object, refusing when the group is not owned by this cluster or
still contains non-terminated instances. -/
def deletePlacementGroup (client : PGClient) (pg : AWSPlacementGroup)
    (infra : Infrastructure) : Except String Unit :=
  match client.describePlacementGroups { groupNames := [pg.name] } with
  | (placementGroups, err) =>
    if errNonNilAndNot4xx err then
      -- Ignore a 400 error as AWS will report an unknown placement group as a 400.
      .error ("could not describe aws placement groups: " ++
        ((err.map (fun e => e.message)).getD ""))
    else
      match placementGroups.placementGroups with
      | _ :: _ :: _ =>
        .error ("expected 1 aws placement group for name \"" ++ pg.name ++ "\", got " ++
          toString placementGroups.placementGroups.length)
      | [] =>
        -- This is the normal path, the named placement group doesn't exist.
        .ok ()
      | [placementGroup] =>
        -- Check that the placement group has a cluster tag.
        let found := placementGroup.tags.any (fun tag =>
          tag.key == "kubernetes.io/cluster/" ++ infra.infrastructureName
            && tag.value == "owned")
        if !found then
          .error "aws placement group was not created by machine-api"
        else
          -- Check that the placement group contains no instances.
          match client.describeInstances
              { filters := [⟨"placement-group-name", [pg.name]⟩] } with
          | .error e =>
            .error ("could not get the number of instances in aws placement group: " ++
              e.message)
          | .ok result =>
            if nonTerminatedInstanceCount result > 0 then
              .error ("aws placement group still contains " ++
                toString (nonTerminatedInstanceCount result) ++ " instances")
            else
              -- Only one placement group with the given name exists and it is
              -- empty, so we remove it.
              match client.deletePlacementGroup { groupName := pg.name } with
              | .error e => .error ("could not remove the cloud resource on aws: " ++ e.message)
              | .ok _ => .ok ()

/-- C5: `deletePlacementGroup` refuses to delete — returning an error whose
value does not depend on the cloud delete call at all — when the described
group lacks the `kubernetes.io/cluster/<clusterID>=owned` tag or when the
tag-scoped instance describe finds a non-terminated instance; the delete call
is issued exactly when the group is owned and the non-terminated count is
zero. -/
theorem deletePlacementGroup_guard (client : PGClient) (pg : AWSPlacementGroup)
    (infra : Infrastructure) (g : PlacementGroup)
    (hdesc : client.describePlacementGroups { groupNames := [pg.name] } = (⟨[g]⟩, none)) :
    (g.tags.any (fun tag =>
        tag.key == "kubernetes.io/cluster/" ++ infra.infrastructureName
          && tag.value == "owned") = false →
      ∀ delFn, deletePlacementGroup { client with deletePlacementGroup := delFn } pg infra =
        .error "aws placement group was not created by machine-api") ∧
    (∀ out, g.tags.any (fun tag =>
        tag.key == "kubernetes.io/cluster/" ++ infra.infrastructureName
          && tag.value == "owned") = true →
      client.describeInstances { filters := [⟨"placement-group-name", [pg.name]⟩] } = .ok out →
      0 < nonTerminatedInstanceCount out →
      ∀ delFn, deletePlacementGroup { client with deletePlacementGroup := delFn } pg infra =
        .error ("aws placement group still contains " ++
          toString (nonTerminatedInstanceCount out) ++ " instances")) ∧
    (∀ out, g.tags.any (fun tag =>
        tag.key == "kubernetes.io/cluster/" ++ infra.infrastructureName
          && tag.value == "owned") = true →
      client.describeInstances { filters := [⟨"placement-group-name", [pg.name]⟩] } = .ok out →
      nonTerminatedInstanceCount out = 0 →
      deletePlacementGroup client pg infra =
        (match client.deletePlacementGroup { groupName := pg.name } with
          | .error e => .error ("could not remove the cloud resource on aws: " ++ e.message)
          | .ok _ => .ok ())) := by
  refine ⟨?_, ?_, ?_⟩
  · intro htags delFn
    simp [deletePlacementGroup, hdesc, errNonNilAndNot4xx, htags]
  · intro out htags hinst hcount delFn
    have hne : nonTerminatedInstanceCount out ≠ 0 := Nat.pos_iff_ne_zero.mp hcount
    simp [deletePlacementGroup, hdesc, errNonNilAndNot4xx, htags, hinst, hcount]
  · intro out htags hinst hcount
    simp [deletePlacementGroup, hdesc, errNonNilAndNot4xx, htags, hinst, hcount]

/-- Witness for C5: a described group carrying no ownership tag is refused. -/
theorem deletePlacementGroup_guard_witness :
    deletePlacementGroup
      { describePlacementGroups := fun _ =>
          (⟨[⟨some "pg1", none, none, none, []⟩]⟩, none)
        describeInstances := fun _ => .ok ⟨[]⟩
        createPlacementGroup := fun _ => .error ⟨none, "unused"⟩
        deletePlacementGroup := fun _ => .ok () }
      ⟨"pg1", ⟨⟨"Managed", some ⟨"Spread", none⟩⟩⟩, ⟨"", ⟨"", none⟩, []⟩⟩
      ⟨"cid", none⟩ = .error "aws placement group was not created by machine-api" :=
  (deletePlacementGroup_guard
    { describePlacementGroups := fun _ =>
        (⟨[⟨some "pg1", none, none, none, []⟩]⟩, none)
      describeInstances := fun _ => .ok ⟨[]⟩
      createPlacementGroup := fun _ => .error ⟨none, "unused"⟩
      deletePlacementGroup := fun _ => .ok () }
    ⟨"pg1", ⟨⟨"Managed", some ⟨"Spread", none⟩⟩⟩, ⟨"", ⟨"", none⟩, []⟩⟩
    ⟨"cid", none⟩ ⟨some "pg1", none, none, none, []⟩ rfl).1 rfl _

/-- `readyConditionType`. -/
def readyConditionType : String := "Ready"

/-- `creationSucceededConditionReason`. -/
def creationSucceededConditionReason : String := "CreationSucceeded"

/-- `creationFailedConditionReason`. -/
def creationFailedConditionReason : String := "CreationFailed"

/-- `configurationMismatchConditionReason`. -/
def configurationMismatchConditionReason : String := "ConfigurationMismatch"

/-- `configurationInSyncConditionReason`. -/
def configurationInSyncConditionReason : String := "ConfigurationInSync"

/-- `ec2.PlacementStrategyCluster`. -/
def ec2PlacementStrategyCluster : String := "cluster"

/-- `ec2.PlacementStrategyPartition`. -/
def ec2PlacementStrategyPartition : String := "partition"

/-- `ec2.PlacementStrategySpread`. -/
def ec2PlacementStrategySpread : String := "spread"

/-- `ec2.ResourceTypePlacementGroup`. -/
def ec2ResourceTypePlacementGroup : String := "placement-group"

/-- Go `strings.Title`: uppercase every letter that follows a non-letter. -/
def stringsTitle (s : String) : String :=
  String.mk ((s.data.foldl
    (fun (acc : List Char × Bool) c =>
      ((if !acc.2 && c.isAlpha then c.toUpper else c) :: acc.1, c.isAlpha))
    ([], false)).1.reverse)

/-- `validateExistingPlacementGroupConfig`: the existing cloud group must match
the spec's name, strategy and (when set and non-zero) partition count. The Go
code dereferences `pg.Spec.ManagementSpec.Managed`; callers reach this only
after validation ensured it is non-nil, and the zero value is used here. -/
def validateExistingPlacementGroupConfig (pg : AWSPlacementGroup)
    (placementGroup : Option PlacementGroup) : Except String Unit :=
  match placementGroup with
  | none => .error "found nil aws placement group"
  | some placementGroup =>
    if placementGroup.groupName.getD "" != pg.name then
      .error ("name mismatch between configured and existing values: wanted: \"" ++
        pg.name ++ "\", got: \"" ++ placementGroup.groupName.getD "" ++ "\"")
    else
      let managed := pg.spec.managementSpec.managed.getD ⟨"", none⟩
      let expectedType? : Option String :=
        if managed.groupType == awsSpreadPlacementGroupType then
          some ec2PlacementStrategySpread
        else if managed.groupType == awsClusterPlacementGroupType then
          some ec2PlacementStrategyCluster
        else if managed.groupType == awsPartitionPlacementGroupType then
          some ec2PlacementStrategyPartition
        else none
      match expectedType? with
      | none =>
        .error ("unknown placement strategy \"" ++ managed.groupType ++
          "\": valid values are " ++ awsSpreadPlacementGroupType ++ ", " ++
          awsClusterPlacementGroupType ++ " and " ++ awsPartitionPlacementGroupType)
      | some expectedPlacementGroupType =>
        if placementGroup.strategy.getD "" != expectedPlacementGroupType then
          .error ("type mismatch between configured and existing values: wanted: \"" ++
            expectedPlacementGroupType ++ "\", got: \"" ++
            placementGroup.strategy.getD "" ++ "\"")
        else if managed.groupType == awsPartitionPlacementGroupType
            && managed.partition.isSome then
          let count := (managed.partition.getD ⟨0⟩).count
          if count != 0 && count != placementGroup.partitionCount.getD 0 then
            .error ("group partition count mismatch between configured and existing values: wanted: "
              ++ toString count ++ ", got: " ++ toString (placementGroup.partitionCount.getD 0))
          else
            .ok ()
        else
          .ok ()

/-- `setObservedConfiguration`: record the configuration observed on AWS in
the object status and set the Ready condition to in-sync or mismatch. -/
def setObservedConfiguration (pg : AWSPlacementGroup)
    (placementGroup : PlacementGroup) : AWSPlacementGroupStatus :=
  let observed : ManagedAWSPlacementGroup :=
    { groupType := stringsTitle (placementGroup.strategy.getD "")
      partition := some ⟨placementGroup.partitionCount.getD 0⟩ }
  let equal :=
    match pg.spec.managementSpec.managed with
    | some m => observed == m
    | none => false
  let condition : Condition :=
    if equal then ⟨readyConditionType, "True", configurationInSyncConditionReason, ""⟩
    else ⟨readyConditionType, "False", configurationMismatchConditionReason, ""⟩
  { pg.status with
    observedConfiguration := observed
    conditions := setStatusCondition pg.status.conditions condition }

/-- `checkOrCreatePlacementGroup`: check for the existence of a placement
group on AWS and validate its config, creating one if no such group exists.
The returned pair is (updated object status, returned Go error). -/
def checkOrCreatePlacementGroup (client : PGClient) (pg : AWSPlacementGroup)
    (infra : Infrastructure) : AWSPlacementGroupStatus × Except String Unit :=
  match client.describePlacementGroups { groupNames := [pg.name] } with
  | (placementGroups, err) =>
    if errNonNilAndNot4xx err then
      -- Ignore a 400 error as AWS will report an unknown placement group as a 400.
      (pg.status, .error ("failed to check aws placement group: could not describe aws placement groups: "
        ++ (err.map (fun e => e.message)).getD ""))
    else
      match placementGroups.placementGroups with
      | _ :: _ :: _ =>
        -- More than one placement group matching.
        (pg.status, .error ("failed to check aws placement group: expected 1 aws placement group for name \""
          ++ pg.name ++ "\", got " ++ toString placementGroups.placementGroups.length))
      | [existing] =>
        -- Placement group already exists on AWS: validate its configuration.
        match validateExistingPlacementGroupConfig pg (some existing) with
        | .error e =>
          ({ pg.status with conditions := (setStatusCondition pg.status.conditions
              ⟨readyConditionType, "False", configurationMismatchConditionReason,
                "invalid configuration for existing aws placement group: " ++ e⟩) },
            .error ("invalid configuration for existing aws placement group: " ++ e))
        | .ok _ => (setObservedConfiguration pg existing, .ok ())
      | [] =>
        -- No placement group with that name exists, create one.
        let tagList := buildPlacementGroupTagList pg.name [] infra
        let createPlacementGroupInput : CreatePlacementGroupInput :=
          { groupName := pg.name
            tagSpecifications := [⟨ec2ResourceTypePlacementGroup, tagList⟩]
            strategy := none
            partitionCount := none }
        -- The Go switch dereferences pg.Spec.ManagementSpec.Managed.
        let managed := pg.spec.managementSpec.managed.getD ⟨"", none⟩
        let input? : Option CreatePlacementGroupInput :=
          if managed.groupType == awsSpreadPlacementGroupType then
            some { createPlacementGroupInput with strategy := some ec2PlacementStrategySpread }
          else if managed.groupType == awsClusterPlacementGroupType then
            some { createPlacementGroupInput with strategy := some ec2PlacementStrategyCluster }
          else if managed.groupType == awsPartitionPlacementGroupType then
            some { createPlacementGroupInput with
              strategy := some ec2PlacementStrategyPartition
              partitionCount :=
                match managed.partition with
                | some partition => if partition.count != 0 then some partition.count else none
                | none => none }
          else none
        match input? with
        | none =>
          (pg.status, .error ("unknown aws placement strategy \"" ++ managed.groupType ++
            "\": valid values are " ++ awsSpreadPlacementGroupType ++ ", " ++
            awsClusterPlacementGroupType ++ ", " ++ awsPartitionPlacementGroupType))
        | some input =>
          match client.createPlacementGroup input with
          | .error e =>
            ({ pg.status with conditions := (setStatusCondition pg.status.conditions
                ⟨readyConditionType, "False", creationFailedConditionReason,
                  "failed to create aws placement group: " ++ e.message⟩) },
              .error ("failed to create aws placement group: " ++ e.message))
          | .ok _ =>
            -- Set successful condition for placement group creation.
            ({ pg.status with conditions := (setStatusCondition pg.status.conditions
                ⟨readyConditionType, "True", creationSucceededConditionReason, ""⟩) },
              .ok ())

/-- C7: a 4xx-shaped describe error (how AWS reports an unknown placement
group) is not propagated by `checkOrCreatePlacementGroup` — the run is
indistinguishable from one whose describe succeeded with the same output, so
an empty output falls through to the create path — while a non-4xx describe
error is returned as an error. -/
theorem checkOrCreatePlacementGroup_4xx (client : PGClient) (pg : AWSPlacementGroup)
    (infra : Infrastructure) (out : DescribePlacementGroupsOutput) (e : AwsError)
    (hdesc : client.describePlacementGroups { groupNames := [pg.name] } = (out, some e)) :
    (isAWS4xxError e = true →
      checkOrCreatePlacementGroup client pg infra =
        checkOrCreatePlacementGroup
          { client with describePlacementGroups := fun _ => (out, none) } pg infra) ∧
    (isAWS4xxError e = false →
      checkOrCreatePlacementGroup client pg infra =
        (pg.status, .error ("failed to check aws placement group: could not describe aws placement groups: "
          ++ e.message))) := by
  constructor
  · intro h4
    simp [checkOrCreatePlacementGroup, hdesc, errNonNilAndNot4xx, h4]
  · intro h4
    simp [checkOrCreatePlacementGroup, hdesc, errNonNilAndNot4xx, h4]

/-- Witness for C7: a 4xx describe error with an empty output behaves exactly
like a successful empty describe (the create path). -/
theorem checkOrCreatePlacementGroup_4xx_witness :
    checkOrCreatePlacementGroup
      { describePlacementGroups := fun _ => (⟨[]⟩, some ⟨some 400, "pg not found"⟩)
        describeInstances := fun _ => .ok ⟨[]⟩
        createPlacementGroup := fun _ => .ok ⟨⟨some "pg1", some "id1", some "spread", none, []⟩⟩
        deletePlacementGroup := fun _ => .ok () }
      ⟨"pg1", ⟨⟨"Managed", some ⟨"Spread", none⟩⟩⟩, ⟨"Managed", ⟨"", none⟩, []⟩⟩
      ⟨"cid", none⟩ =
    checkOrCreatePlacementGroup
      { describePlacementGroups := fun _ => (⟨[]⟩, none)
        describeInstances := fun _ => .ok ⟨[]⟩
        createPlacementGroup := fun _ => .ok ⟨⟨some "pg1", some "id1", some "spread", none, []⟩⟩
        deletePlacementGroup := fun _ => .ok () }
      ⟨"pg1", ⟨⟨"Managed", some ⟨"Spread", none⟩⟩⟩, ⟨"Managed", ⟨"", none⟩, []⟩⟩
      ⟨"cid", none⟩ :=
  (checkOrCreatePlacementGroup_4xx
    { describePlacementGroups := fun _ => (⟨[]⟩, some ⟨some 400, "pg not found"⟩)
      describeInstances := fun _ => .ok ⟨[]⟩
      createPlacementGroup := fun _ => .ok ⟨⟨some "pg1", some "id1", some "spread", none, []⟩⟩
      deletePlacementGroup := fun _ => .ok () }
    ⟨"pg1", ⟨⟨"Managed", some ⟨"Spread", none⟩⟩⟩, ⟨"Managed", ⟨"", none⟩, []⟩⟩
    ⟨"cid", none⟩ ⟨[]⟩ ⟨some 400, "pg not found"⟩ rfl).1 rfl

/-- `runtimeclient.ObjectKey` (name/namespace identity used for logging and
metrics only). -/
structure MachineKey where
  name : String
  nspace : String
deriving Repr, DecidableEq

/-- The Go stdlib collaborators used by the instance launcher: `time.Parse`
with layout RFC3339 (`none` is a parse error; `time.Before` on results is `<`)
and `base64.StdEncoding.EncodeToString` on the user data. -/
structure GoLib where
  parseRFC3339 : String → Option Int
  base64Encode : String → String

/-- `ec2.Image` (fields consulted by the launcher). -/
structure Ec2Image where
  imageId : Option String
  creationDate : Option String
  rootDeviceName : Option String
deriving Repr, DecidableEq

/-- `ec2.DescribeImagesInput`. -/
structure DescribeImagesInput where
  imageIds : List String
  filters : List Ec2Filter
deriving Repr, DecidableEq

/-- `ec2.DescribeImagesOutput`. -/
structure DescribeImagesOutput where
  images : List Ec2Image
deriving Repr, DecidableEq

/-- `ec2.SecurityGroup` (only the group ID is consulted). -/
structure SecurityGroup where
  groupId : Option String
deriving Repr, DecidableEq

/-- `ec2.DescribeSecurityGroupsInput`. -/
structure DescribeSecurityGroupsInput where
  filters : List Ec2Filter
deriving Repr, DecidableEq

/-- `ec2.DescribeSecurityGroupsOutput`. -/
structure DescribeSecurityGroupsOutput where
  securityGroups : List SecurityGroup
deriving Repr, DecidableEq

/-- `ec2.Subnet` (fields consulted). -/
structure Subnet where
  subnetId : Option String
  availabilityZone : Option String
deriving Repr, DecidableEq

/-- `ec2.DescribeSubnetsInput` (the `DryRun` flag is omitted). -/
structure DescribeSubnetsInput where
  subnetIds : List String
  filters : List Ec2Filter
deriving Repr, DecidableEq

/-- `ec2.DescribeSubnetsOutput`. -/
structure DescribeSubnetsOutput where
  subnets : List Subnet
deriving Repr, DecidableEq

/-- `ec2.AvailabilityZone` (only the zone type is consulted). -/
structure AvailabilityZone where
  zoneType : Option String
deriving Repr, DecidableEq

/-- `ec2.DescribeAvailabilityZonesInput`. -/
structure DescribeAvailabilityZonesInput where
  zoneNames : List String
deriving Repr, DecidableEq

/-- `ec2.DescribeAvailabilityZonesOutput`. -/
structure DescribeAvailabilityZonesOutput where
  availabilityZones : List AvailabilityZone
deriving Repr, DecidableEq

/-- `ec2.IamInstanceProfileSpecification`. -/
structure IamInstanceProfileSpecification where
  name : Option String
deriving Repr, DecidableEq

/-- `ec2.InstanceNetworkInterfaceSpecification`. -/
structure InstanceNetworkInterfaceSpecification where
  deviceIndex : Int
  subnetId : Option String
  groups : List String
  associatePublicIpAddress : Option Bool
  associateCarrierIpAddress : Option Bool
  interfaceType : Option String
deriving Repr, DecidableEq

/-- `ec2.EbsBlockDevice`. -/
structure EbsBlockDevice where
  volumeSize : Option Int
  volumeType : Option String
  iops : Option Int
  encrypted : Option Bool
  deleteOnTermination : Option Bool
  kmsKeyId : Option String
deriving Repr, DecidableEq

/-- `ec2.BlockDeviceMapping`. -/
structure BlockDeviceMapping where
  deviceName : Option String
  ebs : Option EbsBlockDevice
deriving Repr, DecidableEq

/-- `ec2.Placement` of the launch request. -/
structure Ec2Placement where
  availabilityZone : Option String
  groupName : Option String
  partitionNumber : Option Int
  tenancy : Option String
deriving Repr, DecidableEq

/-- `ec2.InstanceMetadataOptionsRequest`. -/
structure InstanceMetadataOptionsRequest where
  httpTokens : Option String
deriving Repr, DecidableEq

/-- `ec2.RunInstancesInput` (fields set by `launchInstance`; the Go code only
sets `BlockDeviceMappings` when non-empty, which coincides with the empty
list here). -/
structure RunInstancesInput where
  imageId : Option String
  instanceType : String
  minCount : Int
  maxCount : Int
  keyName : Option String
  iamInstanceProfile : Option IamInstanceProfileSpecification
  tagSpecifications : List Ec2TagSpecification
  networkInterfaces : List InstanceNetworkInterfaceSpecification
  userData : String
  placement : Option Ec2Placement
  metadataOptions : Option InstanceMetadataOptionsRequest
  instanceMarketOptions : Option InstanceMarketOptionsRequest
  capacityReservationSpecification : Option CapacityReservationSpecification
  blockDeviceMappings : List BlockDeviceMapping
deriving Repr, DecidableEq

/-- `ec2.Instance` (identity only; the launcher returns it opaquely). -/
structure Ec2Instance where
  instanceId : Option String
deriving Repr, DecidableEq

/-- `ec2.Reservation` returned by `RunInstances`. -/
structure Reservation where
  instances : List Ec2Instance
deriving Repr, DecidableEq

/-- The cloud client facade used by the machine actuator's launcher. Calls
whose output is consulted only on success are modelled with `Except`. -/
structure AwsClient where
  describeImages : DescribeImagesInput → Except AwsError DescribeImagesOutput
  describeSecurityGroups : DescribeSecurityGroupsInput →
    Except AwsError DescribeSecurityGroupsOutput
  describeSubnets : DescribeSubnetsInput → Except AwsError DescribeSubnetsOutput
  describeAvailabilityZones : DescribeAvailabilityZonesInput →
    Except AwsError DescribeAvailabilityZonesOutput
  runInstances : RunInstancesInput → Except AwsError Reservation

/-- `buildEC2Filters`: translate machine-spec filters to ec2 filters. -/
def buildEC2Filters (inputFilters : List MachineFilter) : List Ec2Filter :=
  inputFilters.map (fun f => ⟨f.name, f.values⟩)

/-- The `for _, image := range describeAMIResult.Images[1:]` loop of `getAMI`:
carry the latest image and its parsed creation time, replacing them when a
strictly later image is found. -/
def getAMILoop (lib : GoLib) : List Ec2Image → Ec2Image → Int →
    Except MachineError (Option String)
  | [], latestImage, _ => .ok latestImage.imageId
  | image :: rest, latestImage, latestTime =>
    match lib.parseRFC3339 (image.creationDate.getD "") with
    | none =>
      .error (.generic ("unable to parse time for \"" ++ image.imageId.getD "" ++ "\" AMI"))
    | some imageTime =>
      if latestTime < imageTime then getAMILoop lib rest image imageTime
      else getAMILoop lib rest latestImage latestTime

/-- `getAMI`: an explicit AMI ID wins; otherwise describe by filters and select
the newest image by RFC3339-parsed creation date. -/
def getAMI (lib : GoLib) (machine : MachineKey) (ami : AWSResourceReference)
    (client : AwsClient) : Except MachineError (Option String) :=
  match ami.id with
  | some amiID => .ok (some amiID)
  | none =>
    if 0 < (ami.filters.getD []).length then
      match client.describeImages { imageIds := [], filters := buildEC2Filters (ami.filters.getD []) } with
      | .error err =>
        .error (.generic ("error describing AMI: " ++ err.message))
      | .ok describeAMIResult =>
        match describeAMIResult.images with
        | [] => .error (.generic "no image for given filters not found")
        | latestImage :: rest =>
          match lib.parseRFC3339 (latestImage.creationDate.getD "") with
          | none =>
            .error (.generic ("unable to parse time for \"" ++
              latestImage.imageId.getD "" ++ "\" AMI"))
          | some latestTime => getAMILoop lib rest latestImage latestTime
    else
      .error (.generic "AMI ID or AMI filters need to be specified")

theorem getAMILoop_err (lib : GoLib) (rest : List Ec2Image) (cur : Ec2Image) (curTime : Int)
    (him : ∃ im ∈ rest, lib.parseRFC3339 (im.creationDate.getD "") = none) :
    ∃ msg, getAMILoop lib rest cur curTime = .error (.generic msg) := by
  induction rest generalizing cur curTime with
  | nil => rcases him with ⟨im, hmem, _⟩; simp at hmem
  | cons image rest ih =>
    rcases him with ⟨im, hmem, hparse⟩
    cases hp : lib.parseRFC3339 (image.creationDate.getD "") with
    | none =>
      exact ⟨"unable to parse time for \"" ++ image.imageId.getD "" ++ "\" AMI",
        by simp only [getAMILoop, hp]⟩
    | some imageTime =>
      have him' : ∃ im ∈ rest, lib.parseRFC3339 (im.creationDate.getD "") = none := by
        rcases List.mem_cons.mp hmem with h | h
        · rw [h, hp] at hparse; exact absurd hparse (by simp)
        · exact ⟨im, h, hparse⟩
      have hstep : getAMILoop lib (image :: rest) cur curTime =
          if curTime < imageTime then getAMILoop lib rest image imageTime
          else getAMILoop lib rest cur curTime := by
        simp only [getAMILoop, hp]
      by_cases hlt : curTime < imageTime
      · obtain ⟨msg, hmsg⟩ := ih image imageTime him'
        exact ⟨msg, by rw [hstep, if_pos hlt]; exact hmsg⟩
      · obtain ⟨msg, hmsg⟩ := ih cur curTime him'
        exact ⟨msg, by rw [hstep, if_neg hlt]; exact hmsg⟩

theorem getAMILoop_max (lib : GoLib) (rest : List Ec2Image) (cur : Ec2Image) (curTime : Int)
    (hall : ∀ im ∈ rest, (lib.parseRFC3339 (im.creationDate.getD "")).isSome)
    (hcur : lib.parseRFC3339 (cur.creationDate.getD "") = some curTime) :
    ∃ best vbest pre post,
      cur :: rest = pre ++ best :: post ∧
      getAMILoop lib rest cur curTime = .ok best.imageId ∧
      lib.parseRFC3339 (best.creationDate.getD "") = some vbest ∧
      curTime ≤ vbest ∧
      (∀ im ∈ rest, ∀ v, lib.parseRFC3339 (im.creationDate.getD "") = some v → v ≤ vbest) ∧
      (∀ im ∈ pre, ∀ v, lib.parseRFC3339 (im.creationDate.getD "") = some v → v < vbest) := by
  induction rest generalizing cur curTime with
  | nil =>
    refine ⟨cur, curTime, [], [], rfl, rfl, hcur, le_refl _, ?_, ?_⟩
    · intro im hmem; simp at hmem
    · intro im hmem; simp at hmem
  | cons image rest ih =>
    have himg : (lib.parseRFC3339 (image.creationDate.getD "")).isSome :=
      hall image (List.mem_cons_self _ _)
    cases hp : lib.parseRFC3339 (image.creationDate.getD "") with
    | none => rw [hp] at himg; exact absurd himg (by simp)
    | some imageTime =>
      have hall' : ∀ im ∈ rest, (lib.parseRFC3339 (im.creationDate.getD "")).isSome :=
        fun im hmem => hall im (List.mem_cons_of_mem _ hmem)
      have hstep : getAMILoop lib (image :: rest) cur curTime =
          if curTime < imageTime then getAMILoop lib rest image imageTime
          else getAMILoop lib rest cur curTime := by
        simp only [getAMILoop, hp]
      by_cases hlt : curTime < imageTime
      · obtain ⟨best, vbest, pre, post, hdecomp, hres, hbest, hle, hrest, hpre⟩ :=
          ih image imageTime hall' hp
        refine ⟨best, vbest, cur :: pre, post, by rw [List.cons_append, ← hdecomp],
          by rw [hstep, if_pos hlt]; exact hres,
          hbest, le_of_lt (lt_of_lt_of_le hlt hle), ?_, ?_⟩
        · intro im hmem v hv
          rcases List.mem_cons.mp hmem with h | h
          · rw [h, hp] at hv
            exact (Option.some_inj.mp hv) ▸ hle
          · exact hrest im h v hv
        · intro im hmem v hv
          rcases List.mem_cons.mp hmem with h | h
          · rw [h, hcur] at hv
            exact (Option.some_inj.mp hv) ▸ lt_of_lt_of_le hlt hle
          · exact hpre im h v hv
      · have hge : imageTime ≤ curTime := le_of_not_lt hlt
        obtain ⟨best, vbest, pre, post, hdecomp, hres, hbest, hle, hrest, hpre⟩ :=
          ih cur curTime hall' hcur
        cases pre with
        | nil =>
          simp only [List.nil_append] at hdecomp
          have hbc : best = cur := ((List.cons.injEq _ _ _ _).mp hdecomp |>.1).symm
          have hpost : post = rest := ((List.cons.injEq _ _ _ _).mp hdecomp |>.2).symm
          refine ⟨best, vbest, [], image :: post,
            by rw [List.nil_append, hpost, hbc],
            by rw [hstep, if_neg hlt]; exact hres, hbest, hle, ?_, ?_⟩
          · intro im hmem v hv
            rcases List.mem_cons.mp hmem with h | h
            · rw [h, hp] at hv
              exact (Option.some_inj.mp hv) ▸ le_trans hge hle
            · exact hrest im (hpost ▸ h) v hv
          · intro im hmem; simp at hmem
        | cons p0 pre' =>
          simp only [List.cons_append] at hdecomp
          have hp0 : p0 = cur := ((List.cons.injEq _ _ _ _).mp hdecomp |>.1).symm
          have hrest' : rest = pre' ++ best :: post := (List.cons.injEq _ _ _ _).mp hdecomp |>.2
          have hcurlt : curTime < vbest := by
            have := hpre p0 (List.mem_cons_self _ _) curTime (by rw [hp0]; exact hcur)
            exact this
          refine ⟨best, vbest, cur :: image :: pre', post,
            by rw [List.cons_append, List.cons_append, ← hrest'],
            by rw [hstep, if_neg hlt]; exact hres, hbest, hle, ?_, ?_⟩
          · intro im hmem v hv
            rcases List.mem_cons.mp hmem with h | h
            · rw [h, hp] at hv
              exact (Option.some_inj.mp hv) ▸ le_trans hge (le_of_lt hcurlt)
            · exact hrest im (hrest' ▸ h) v hv
          · intro im hmem v hv
            rcases List.mem_cons.mp hmem with h | h
            · rw [h, hcur] at hv
              exact (Option.some_inj.mp hv) ▸ hcurlt
            · rcases List.mem_cons.mp h with h' | h'
              · rw [h', hp] at hv
                exact (Option.some_inj.mp hv) ▸ lt_of_le_of_lt hge hcurlt
              · exact hpre im (by rw [hp0]; exact List.mem_cons_of_mem _ h') v hv

/-- C8: for a filter-based AMI lookup, zero matching images is an error, an
unparsable creation date on any image is an error, and otherwise `getAMI`
returns the image whose parsed creation timestamp is strictly the latest,
keeping the first image in iteration order on ties. -/
theorem getAMI_spec (lib : GoLib) (machine : MachineKey) (ami : AWSResourceReference)
    (client : AwsClient) (out : DescribeImagesOutput)
    (hid : ami.id = none)
    (hfl : 0 < (ami.filters.getD []).length)
    (hdesc : client.describeImages
      { imageIds := [], filters := buildEC2Filters (ami.filters.getD []) } = .ok out) :
    (out.images = [] → ∃ msg, getAMI lib machine ami client = .error (.generic msg)) ∧
    ((∃ image ∈ out.images, lib.parseRFC3339 (image.creationDate.getD "") = none) →
      ∃ msg, getAMI lib machine ami client = .error (.generic msg)) ∧
    ((∀ image ∈ out.images, (lib.parseRFC3339 (image.creationDate.getD "")).isSome) →
      out.images ≠ [] →
      ∃ best vbest pre post,
        out.images = pre ++ best :: post ∧
        getAMI lib machine ami client = .ok best.imageId ∧
        lib.parseRFC3339 (best.creationDate.getD "") = some vbest ∧
        (∀ im ∈ out.images, ∀ v,
          lib.parseRFC3339 (im.creationDate.getD "") = some v → v ≤ vbest) ∧
        (∀ im ∈ pre, ∀ v,
          lib.parseRFC3339 (im.creationDate.getD "") = some v → v < vbest)) := by
  refine ⟨?_, ?_, ?_⟩
  · intro hempty
    refine ⟨"no image for given filters not found", ?_⟩
    simp [getAMI, hid, hfl, hdesc, hempty]
  · intro hbad
    cases himgs : out.images with
    | nil => rcases hbad with ⟨im, hmem, _⟩; rw [himgs] at hmem; simp at hmem
    | cons latestImage rest =>
      rw [himgs] at hbad
      cases hp : lib.parseRFC3339 (latestImage.creationDate.getD "") with
      | none =>
        refine ⟨"unable to parse time for \"" ++ latestImage.imageId.getD "" ++ "\" AMI", ?_⟩
        simp [getAMI, hid, hfl, hdesc, himgs, hp]
      | some latestTime =>
        have hrest : ∃ im ∈ rest, lib.parseRFC3339 (im.creationDate.getD "") = none := by
          rcases hbad with ⟨im, hmem, hparse⟩
          rcases List.mem_cons.mp hmem with h | h
          · rw [h, hp] at hparse; exact absurd hparse (by simp)
          · exact ⟨im, h, hparse⟩
        obtain ⟨msg, hmsg⟩ := getAMILoop_err lib rest latestImage latestTime hrest
        refine ⟨msg, ?_⟩
        simp [getAMI, hid, hfl, hdesc, himgs, hp, hmsg]
  · intro hall hne
    cases himgs : out.images with
    | nil => exact absurd himgs hne
    | cons latestImage rest =>
      rw [himgs] at hall
      have hcur : (lib.parseRFC3339 (latestImage.creationDate.getD "")).isSome :=
        hall latestImage (List.mem_cons_self _ _)
      cases hp : lib.parseRFC3339 (latestImage.creationDate.getD "") with
      | none => rw [hp] at hcur; exact absurd hcur (by simp)
      | some latestTime =>
        obtain ⟨best, vbest, pre, post, hdecomp, hres, hbest, _, hrest, hpre⟩ :=
          getAMILoop_max lib rest latestImage latestTime
            (fun im hmem => hall im (List.mem_cons_of_mem _ hmem)) hp
        refine ⟨best, vbest, pre, post, hdecomp, ?_, hbest, ?_, hpre⟩
        · simp [getAMI, hid, hfl, hdesc, himgs, hp, hres]
        · intro im hmem v hv
          rw [hdecomp] at hmem
          rcases List.mem_append.mp hmem with h | h
          · exact le_of_lt (hpre im h v hv)
          · rcases List.mem_cons.mp h with h' | h'
            · rw [h', hbest] at hv
              exact le_of_eq (Option.some_inj.mp hv).symm
            · have : im ∈ rest := by
                have hsub : pre ++ best :: post = latestImage :: rest := hdecomp.symm
                cases pre with
                | nil =>
                  simp only [List.nil_append] at hsub
                  have := (List.cons.injEq _ _ _ _).mp hsub |>.2
                  exact this ▸ h'
                | cons p0 pre' =>
                  simp only [List.cons_append] at hsub
                  have := (List.cons.injEq _ _ _ _).mp hsub |>.2
                  rw [← this]
                  exact List.mem_append_right _ (List.mem_cons_of_mem _ h')
              exact hrest im this v hv

/-- Witness for C8: a filter lookup whose describe returns zero images errors. -/
theorem getAMI_spec_witness :
    ∃ msg, getAMI
      ⟨fun _ => none, fun s => s⟩ ⟨"m", "ns"⟩
      ⟨none, none, some [⟨"tag:Name", ["img"]⟩]⟩
      { describeImages := fun _ => .ok ⟨[]⟩
        describeSecurityGroups := fun _ => .ok ⟨[]⟩
        describeSubnets := fun _ => .ok ⟨[]⟩
        describeAvailabilityZones := fun _ => .ok ⟨[]⟩
        runInstances := fun _ => .ok ⟨[]⟩ } = .error (.generic msg) :=
  (getAMI_spec ⟨fun _ => none, fun s => s⟩ ⟨"m", "ns"⟩
    ⟨none, none, some [⟨"tag:Name", ["img"]⟩]⟩
    { describeImages := fun _ => .ok ⟨[]⟩
      describeSecurityGroups := fun _ => .ok ⟨[]⟩
      describeSubnets := fun _ => .ok ⟨[]⟩
      describeAvailabilityZones := fun _ => .ok ⟨[]⟩
      runInstances := fun _ => .ok ⟨[]⟩ } ⟨[]⟩ rfl (by decide) rfl).1 rfl

/-- `machine.openshift.io/vCPU` (`cpuKey`). -/
def cpuKey : String := "machine.openshift.io/vCPU"

/-- `machine.openshift.io/memoryMb` (`memoryKey`). -/
def memoryKey : String := "machine.openshift.io/memoryMb"

/-- `machine.openshift.io/GPU` (`gpuKey`). -/
def gpuKey : String := "machine.openshift.io/GPU"

/-- `capacity.cluster-autoscaler.kubernetes.io/labels` (`labelsKey`). -/
def labelsKey : String := "capacity.cluster-autoscaler.kubernetes.io/labels"

/-- The machineset package's `InstanceType` record (vCPU count, memory in MiB,
GPU count, normalized CPU architecture). -/
structure InstanceType where
  vcpu : Int
  memoryMb : Int
  gpu : Int
  cpuArchitecture : String
deriving Repr, DecidableEq

/-- Go map read `annotations[k]` (missing keys read as the zero value `""`). -/
def annGet (anns : List (String × String)) (k : String) : String :=
  ((anns.find? (fun kv => kv.1 == k)).map (fun kv => kv.2)).getD ""

/-- Go map write `annotations[k] = v`. -/
def annSet (anns : List (String × String)) (k v : String) : List (String × String) :=
  if anns.any (fun kv => kv.1 == k) then
    anns.map (fun kv => if kv.1 == k then (k, v) else kv)
  else
    anns ++ [(k, v)]

/-- Split a character list at every comma (the shape of
`strings.Split(s, ",")`). -/
def splitOnCommaChars : List Char → List (List Char)
  | [] => [[]]
  | c :: rest =>
    let r := splitOnCommaChars rest
    if c = ',' then [] :: r
    else
      match r with
      | [] => [[c]]
      | x :: xs => (c :: x) :: xs

/-- `strings.Split(s, ",")` on a string. -/
def splitOnComma (s : String) : List String :=
  (splitOnCommaChars s.data).map String.mk

/-- `strings.Join(entries, ",")`. -/
def joinWithComma : List String → String
  | [] => ""
  | [e] => e
  | e :: rest => e ++ "," ++ joinWithComma rest

/-- The key of a `key=value` entry. -/
def entryKey (e : String) : String :=
  String.mk (e.data.takeWhile (fun c => c ≠ '='))

/-- Modelled from the spec: `util.MergeCommaSeparatedKeyValuePairs` lives in
machine-api-operator and is not under src/. Per the spec, "existing
comma-separated entries are preserved and merged, not overwritten": the
existing entries are kept intact and entries of the new pair list whose key is
not already present are appended. -/
def mergeCommaSeparatedKeyValuePairs (pairs existing : String) : String :=
  let existingEntries := (splitOnComma existing).filter (fun e => e != "")
  let newEntries := (splitOnComma pairs).filter (fun e => e != "")
  let existingKeys := existingEntries.map entryKey
  joinWithComma
    (existingEntries ++ newEntries.filter
      (fun e => !(existingKeys.contains (entryKey e))))

/-- Modelled from the spec: the instance-type cache (`InstanceTypesCache`,
excluded from the spec's scope) resolving instance-type names against the
values carried by the repository's fake client — `p2.16xlarge` is 64 vCPU,
749568 MiB, 16 GPUs, amd64 — with unknown names yielding an error. -/
def getInstanceTypeFake (instanceType : String) : Except String InstanceType :=
  if instanceType == "a1.2xlarge" then .ok ⟨8, 16384, 0, "amd64"⟩
  else if instanceType == "p2.16xlarge" then .ok ⟨64, 749568, 16, "amd64"⟩
  else if instanceType == "m6g.4xlarge" then .ok ⟨16, 65536, 0, "arm64"⟩
  else .error ("instance type not found: " ++ instanceType)

/-- The instance-type portion of the machineset `Reconciler.reconcile`
(pkg/actuators/machineset/controller.go): given the result of
`InstanceTypesCache.GetInstanceType`, either emit one `FailedUpdate` warning
event and change nothing (unknown type, no error so no requeue), or set the
four scale-from-zero annotations. Returns (annotations, events, error). -/
def machineSetReconcile (annotations : List (String × String))
    (instanceTypeResult : Except String InstanceType) :
    List (String × String) × List String × Option MachineError :=
  match instanceTypeResult with
  | .error _ =>
    -- Returning no error to prevent further reconciliation, as user
    -- intervention is now required, but emit an informational event.
    (annotations, ["FailedUpdate"], none)
  | .ok instanceType =>
    let a1 := annSet annotations cpuKey (toString instanceType.vcpu)
    let a2 := annSet a1 memoryKey (toString instanceType.memoryMb)
    let a3 := annSet a2 gpuKey (toString instanceType.gpu)
    -- Existing labels provided via the capacity annotation are preserved.
    let a4 := annSet a3 labelsKey
      (mergeCommaSeparatedKeyValuePairs
        ("kubernetes.io/arch=" ++ instanceType.cpuArchitecture)
        (annGet a3 labelsKey))
    (a4, [], none)

theorem annGet_cons (a : String × String) (anns : List (String × String)) (k' : String) :
    annGet (a :: anns) k' = if a.1 == k' then a.2 else annGet anns k' := by
  rw [annGet, List.find?_cons]
  cases h : a.1 == k'
  · simp [annGet]
  · simp

theorem annGet_map_replace_self (anns : List (String × String)) (k v : String)
    (hany : anns.any (fun kv => kv.1 == k) = true) :
    annGet (anns.map (fun kv => if kv.1 == k then (k, v) else kv)) k = v := by
  induction anns with
  | nil => simp at hany
  | cons a rest ih =>
    simp only [List.any_cons, Bool.or_eq_true] at hany
    cases ha : a.1 == k with
    | true =>
      have ha' : a.1 = k := beq_iff_eq.mp ha
      simp [List.map_cons, ha', annGet_cons]
    | false =>
      have ha' : a.1 ≠ k := beq_eq_false_iff_ne.mp ha
      have hrest : rest.any (fun kv => kv.1 == k) = true := by
        rcases hany with h | h
        · rw [ha] at h; exact absurd h (by simp)
        · exact h
      have ihh := ih hrest
      simp [List.map_cons, ha', annGet_cons] at ihh ⊢
      exact ihh

theorem annGet_map_replace_ne (anns : List (String × String)) (k v k' : String)
    (hne : k' ≠ k) :
    annGet (anns.map (fun kv => if kv.1 == k then (k, v) else kv)) k' = annGet anns k' := by
  have hkk : (k == k') = false := beq_eq_false_iff_ne.mpr (fun h => hne h.symm)
  induction anns with
  | nil => rfl
  | cons a rest ih =>
    cases ha : a.1 == k with
    | true =>
      have ha' : a.1 = k := beq_iff_eq.mp ha
      have hkk' : k ≠ k' := fun h => hne h.symm
      have ihh := ih
      simp [List.map_cons, ha', annGet_cons, hkk'] at ihh ⊢
      exact ihh
    | false =>
      have ha' : a.1 ≠ k := beq_eq_false_iff_ne.mp ha
      cases hak : a.1 == k' with
      | true =>
        have hak' : a.1 = k' := beq_iff_eq.mp hak
        simp [List.map_cons, ha', annGet_cons, hak', hne]
      | false =>
        have hak' : a.1 ≠ k' := beq_eq_false_iff_ne.mp hak
        have ihh := ih
        simp [List.map_cons, ha', annGet_cons, hak'] at ihh ⊢
        exact ihh

theorem annGet_annSet_self (anns : List (String × String)) (k v : String) :
    annGet (annSet anns k v) k = v := by
  by_cases hany : anns.any (fun kv => kv.1 == k) = true
  · rw [annSet, if_pos hany]
    exact annGet_map_replace_self anns k v hany
  · rw [annSet, if_neg hany]
    induction anns with
    | nil => simp [annGet_cons]
    | cons a rest ih =>
      simp only [List.any_cons, Bool.or_eq_true] at hany
      push_neg at hany
      have ha : (a.1 == k) = false := by
        cases h : a.1 == k
        · rfl
        · exact absurd h hany.1
      have hrest : ¬(rest.any (fun kv => kv.1 == k) = true) := hany.2
      simp only [List.cons_append, annGet_cons, ha]
      simp only [Bool.false_eq_true, if_false]
      exact ih hrest
  
theorem annGet_annSet_ne (anns : List (String × String)) (k v k' : String)
    (hne : k' ≠ k) :
    annGet (annSet anns k v) k' = annGet anns k' := by
  have hkk : (k == k') = false := beq_eq_false_iff_ne.mpr (fun h => hne h.symm)
  by_cases hany : anns.any (fun kv => kv.1 == k) = true
  · rw [annSet, if_pos hany]
    exact annGet_map_replace_ne anns k v k' hne
  · rw [annSet, if_neg hany]
    induction anns with
    | nil => simp [annGet_cons, hkk]
    | cons a rest ih =>
      have hrest : ¬(rest.any (fun kv => kv.1 == k) = true) := by
        intro h
        exact hany (by simp [List.any_cons, h])
      cases hak : a.1 == k' with
      | true => simp [List.cons_append, annGet_cons, hak]
      | false => simp [List.cons_append, annGet_cons, hak, ih hrest]

/-- C9: reconciling a MachineSet whose instance type resolves (p2.16xlarge)
sets exactly the four autoscaling annotations — vCPU 64, memory 749568 MiB,
16 GPUs, and a labels annotation carrying the architecture entry merged with
(not overwriting) the existing comma-separated entries — emitting no event and
no error; an unknown instance type changes no annotations, emits exactly one
FailedUpdate warning event and returns no error. -/
theorem machineSetReconcile_spec (annotations : List (String × String)) :
    annGet (machineSetReconcile annotations (getInstanceTypeFake "p2.16xlarge")).1 cpuKey
      = "64" ∧
    annGet (machineSetReconcile annotations (getInstanceTypeFake "p2.16xlarge")).1 memoryKey
      = "749568" ∧
    annGet (machineSetReconcile annotations (getInstanceTypeFake "p2.16xlarge")).1 gpuKey
      = "16" ∧
    (annGet annotations labelsKey = "" →
      annGet (machineSetReconcile annotations (getInstanceTypeFake "p2.16xlarge")).1 labelsKey
        = "kubernetes.io/arch=amd64") ∧
    (∃ extra,
      annGet (machineSetReconcile annotations (getInstanceTypeFake "p2.16xlarge")).1 labelsKey
        = joinWithComma
          (((splitOnComma (annGet annotations labelsKey)).filter (fun e => e != "")) ++ extra)) ∧
    (∀ k, k ≠ cpuKey → k ≠ memoryKey → k ≠ gpuKey → k ≠ labelsKey →
      annGet (machineSetReconcile annotations (getInstanceTypeFake "p2.16xlarge")).1 k
        = annGet annotations k) ∧
    (machineSetReconcile annotations (getInstanceTypeFake "p2.16xlarge")).2 = ([], none) ∧
    machineSetReconcile annotations (getInstanceTypeFake "invalid")
      = (annotations, ["FailedUpdate"], none) := by
  have hck : getInstanceTypeFake "p2.16xlarge" = .ok ⟨64, 749568, 16, "amd64"⟩ := rfl
  have hstep : machineSetReconcile annotations (getInstanceTypeFake "p2.16xlarge") =
      (annSet (annSet (annSet (annSet annotations cpuKey "64") memoryKey "749568") gpuKey "16")
        labelsKey
        (mergeCommaSeparatedKeyValuePairs "kubernetes.io/arch=amd64"
          (annGet (annSet (annSet (annSet annotations cpuKey "64") memoryKey "749568")
            gpuKey "16") labelsKey)),
      [], none) := by
    rw [hck]
    rfl
  have hcpu_ne_mem : cpuKey ≠ memoryKey := by decide
  have hcpu_ne_gpu : cpuKey ≠ gpuKey := by decide
  have hcpu_ne_lbl : cpuKey ≠ labelsKey := by decide
  have hmem_ne_gpu : memoryKey ≠ gpuKey := by decide
  have hmem_ne_lbl : memoryKey ≠ labelsKey := by decide
  have hgpu_ne_lbl : gpuKey ≠ labelsKey := by decide
  have hlblX : annGet (annSet (annSet (annSet annotations cpuKey "64") memoryKey "749568")
      gpuKey "16") labelsKey = annGet annotations labelsKey := by
    rw [annGet_annSet_ne _ _ _ _ (fun h => hgpu_ne_lbl h.symm),
      annGet_annSet_ne _ _ _ _ (fun h => hmem_ne_lbl h.symm),
      annGet_annSet_ne _ _ _ _ (fun h => hcpu_ne_lbl h.symm)]
  refine ⟨?_, ?_, ?_, ?_, ?_, ?_, ?_, ?_⟩
  · rw [hstep]
    rw [annGet_annSet_ne _ _ _ _ hcpu_ne_lbl, annGet_annSet_ne _ _ _ _ hcpu_ne_gpu,
      annGet_annSet_ne _ _ _ _ hcpu_ne_mem, annGet_annSet_self]
  · rw [hstep]
    rw [annGet_annSet_ne _ _ _ _ hmem_ne_lbl, annGet_annSet_ne _ _ _ _ hmem_ne_gpu,
      annGet_annSet_self]
  · rw [hstep]
    rw [annGet_annSet_ne _ _ _ _ hgpu_ne_lbl, annGet_annSet_self]
  · intro hempty
    rw [hstep]
    rw [annGet_annSet_self, hlblX, hempty]
    rfl
  · rw [hstep]
    rw [annGet_annSet_self, hlblX]
    exact ⟨((splitOnComma "kubernetes.io/arch=amd64").filter (fun e => e != "")).filter
      (fun e => !(((splitOnComma (annGet annotations labelsKey)).filter
        (fun e => e != "")).map entryKey).contains (entryKey e)), rfl⟩
  · intro k hk1 hk2 hk3 hk4
    rw [hstep]
    rw [annGet_annSet_ne _ _ _ _ hk4, annGet_annSet_ne _ _ _ _ hk3,
      annGet_annSet_ne _ _ _ _ hk2, annGet_annSet_ne _ _ _ _ hk1]
  · rw [hstep]
  · rfl

/-- Witness for C9: with no pre-existing annotations the labels annotation
becomes exactly the architecture entry. -/
theorem machineSetReconcile_spec_witness :
    annGet (machineSetReconcile [] (getInstanceTypeFake "p2.16xlarge")).1 labelsKey
      = "kubernetes.io/arch=amd64" :=
  (machineSetReconcile_spec []).2.2.2.1 rfl

/-- The message carried by a Go error value (`%v` formatting). -/
def MachineError.msg : MachineError → String
  | .invalidConfiguration m => m
  | .createMachine m => m
  | .generic m => m

/-- `zoneTypeWavelengthZone`. -/
def zoneTypeWavelengthZone : String := "wavelength-zone"

/-- The loop of `getSecurityGroupsIDs`: an explicit ID has priority, otherwise
groups matching the filters are described and all their IDs accumulated. -/
def getSecurityGroupsIDsLoop (client : AwsClient) :
    List AWSResourceReference → Except MachineError (List String)
  | [] => .ok []
  | g :: rest =>
    match g.id with
    | some gid =>
      match getSecurityGroupsIDsLoop client rest with
      | .error e => .error e
      | .ok restIDs => .ok (gid :: restIDs)
    | none =>
      match g.filters with
      | some fs =>
        match client.describeSecurityGroups { filters := buildEC2Filters fs } with
        | .error e => .error (.generic ("error describing security groups: " ++ e.message))
        | .ok res =>
          match getSecurityGroupsIDsLoop client rest with
          | .error e => .error e
          | .ok restIDs =>
            .ok (res.securityGroups.map (fun sg => sg.groupId.getD "") ++ restIDs)
      | none =>
        getSecurityGroupsIDsLoop client rest

/-- `getSecurityGroupsIDs`: an empty accumulated list is an error. -/
def getSecurityGroupsIDs (securityGroups : List AWSResourceReference)
    (client : AwsClient) : Except MachineError (List String) :=
  match getSecurityGroupsIDsLoop client securityGroups with
  | .error e => .error e
  | .ok securityGroupIDs =>
    if securityGroupIDs.length == 0 then .error (.generic "no security group found")
    else .ok securityGroupIDs

/-- `getAvalabilityZoneFromSubnetID` (sic): the zone of the first subnet
returned for the ID. -/
def getAvalabilityZoneFromSubnetID (subnetID : String) (client : AwsClient) :
    Except MachineError String :=
  match client.describeSubnets { subnetIds := [subnetID], filters := [] } with
  | .error e => .error (.generic ("could not describe a subnet: " ++ e.message))
  | .ok result =>
    match result.subnets with
    | [] => .error (.generic "could not get an availability zone from a subnet id")
    | s :: _ => .ok (s.availabilityZone.getD "")

/-- `getAvalabilityZoneTypeFromZoneName` (sic): the type of the first zone
returned for the name. -/
def getAvalabilityZoneTypeFromZoneName (zoneName : String) (client : AwsClient) :
    Except MachineError String :=
  match client.describeAvailabilityZones { zoneNames := [zoneName] } with
  | .error e => .error (.generic ("could not describe a zones: " ++ e.message))
  | .ok result =>
    match result.availabilityZones with
    | [] => .error (.generic "could not get an availability zone type from a zone name")
    | z :: _ => .ok (z.zoneType.getD "")

/-- `getSubnetIDs`: an explicit ID has priority (the cross-check of the ID's
availability zone only logs, never fails, so it does not affect the result);
otherwise subnets are described by the zone filter plus the spec's filters. -/
def getSubnetIDs (machine : MachineKey) (subnet : AWSResourceReference)
    (availabilityZone : String) (client : AwsClient) : Except MachineError (List String) :=
  match subnet.id with
  | some sid => .ok [sid]
  | none =>
    let azCheck : Except MachineError (List MachineFilter) :=
      if availabilityZone != "" then
        match client.describeAvailabilityZones { zoneNames := [availabilityZone] } with
        | .error e => .error (.generic ("error describing availability zones: " ++ e.message))
        | .ok _ => .ok [⟨"availabilityZone", [availabilityZone]⟩]
      else
        .ok []
    match azCheck with
    | .error e => .error e
    | .ok filters =>
      let filters := filters ++ subnet.filters.getD []
      match client.describeSubnets { subnetIds := [], filters := buildEC2Filters filters } with
      | .error e => .error (.generic ("error describing subnets: " ++ e.message))
      | .ok describeSubnetResult =>
        let subnetIDs := describeSubnetResult.subnets.map (fun n => n.subnetId.getD "")
        if subnetIDs.length == 0 then .error (.generic "no subnet IDs were found")
        else .ok subnetIDs

/-- `ec2.VolumeTypeIo1`. -/
def ec2VolumeTypeIo1 : String := "io1"

/-- `ec2.VolumeTypeIo2`. -/
def ec2VolumeTypeIo2 : String := "io2"

/-- `ec2.VolumeTypeGp3`. -/
def ec2VolumeTypeGp3 : String := "gp3"

/-- The body of the `getBlockDeviceMappings` loop for one spec with EBS set:
IOPS only forwarded for io1/io2/gp3 and only when strictly positive; the KMS
key ID wins over the ARN. -/
def buildBlockDeviceMapping (deviceName : Option String)
    (ebs : EBSBlockDeviceSpec) : BlockDeviceMapping :=
  let base : EbsBlockDevice :=
    { volumeSize := ebs.volumeSize
      volumeType := ebs.volumeType
      iops := none
      encrypted := ebs.encrypted
      deleteOnTermination := some true
      kmsKeyId := none }
  let base :=
    if (ebs.volumeType.getD "" == ec2VolumeTypeIo1
        || ebs.volumeType.getD "" == ec2VolumeTypeIo2
        || ebs.volumeType.getD "" == ec2VolumeTypeGp3) then
      match ebs.iops with
      | some iops => if 0 < iops then { base with iops := some iops } else base
      | none => base
    else
      base
  let withKms : EbsBlockDevice :=
    if ebs.kmsKey.id.getD "" != "" then { base with kmsKeyId := ebs.kmsKey.id }
    else if ebs.kmsKey.arn.getD "" != "" then { base with kmsKeyId := ebs.kmsKey.arn }
    else base
  { deviceName := deviceName, ebs := some withKms }

/-- The loop of `getBlockDeviceMappings` with the AMI's root device name and
the `rootDeviceFound` flag threaded. -/
def getBlockDeviceMappingsLoop (rootDeviceName : Option String) (rootDeviceFound : Bool) :
    List BlockDeviceMappingSpec → Except MachineError (List BlockDeviceMapping)
  | [] => .ok []
  | spec :: rest =>
    match spec.ebs with
    | none => getBlockDeviceMappingsLoop rootDeviceName rootDeviceFound rest
    | some ebs =>
      match spec.deviceName with
      | none =>
        if rootDeviceFound then .error (.generic "non root device must have name")
        else
          match getBlockDeviceMappingsLoop rootDeviceName true rest with
          | .error e => .error e
          | .ok restMappings => .ok (buildBlockDeviceMapping rootDeviceName ebs :: restMappings)
      | some dn =>
        match getBlockDeviceMappingsLoop rootDeviceName rootDeviceFound rest with
        | .error e => .error e
        | .ok restMappings => .ok (buildBlockDeviceMapping (some dn) ebs :: restMappings)

/-- `getBlockDeviceMappings`: empty specs yield no mappings without any
describe call; otherwise the AMI is described to resolve the root device
name. -/
def getBlockDeviceMappings (machine : MachineKey)
    (blockDeviceMappingSpecs : List BlockDeviceMappingSpec) (ami : String)
    (client : AwsClient) : Except MachineError (List BlockDeviceMapping) :=
  if blockDeviceMappingSpecs.length == 0 then .ok []
  else
    match client.describeImages { imageIds := [ami], filters := [] } with
    | .error e => .error (.generic ("error describing AMI: " ++ e.message))
    | .ok describeAMIResult =>
      match describeAMIResult.images with
      | [] => .error (.generic "no image for given AMI not found")
      | img0 :: _ => getBlockDeviceMappingsLoop img0.rootDeviceName false blockDeviceMappingSpecs

/-- `machinev1beta1.Machine` as consulted by the launcher. `clusterID` stands
for the cluster label consulted by `getClusterID`. -/
structure Machine where
  name : String
  nspace : String
  clusterID : Option String
deriving Repr, DecidableEq

/-- Modelled from the spec: `getClusterID` (repo code not under src/) reads
the owning cluster's ID off the Machine, returning it with an `ok` flag that
is false when the label is absent. -/
def getClusterID (machine : Machine) : String × Bool :=
  match machine.clusterID with
  | some cid => (cid, true)
  | none => ("", false)

/-- `machinev1beta1.DefaultTenancy`. -/
def defaultTenancy : String := "default"

/-- `machinev1beta1.DedicatedTenancy`. -/
def dedicatedTenancy : String := "dedicated"

/-- `machinev1beta1.HostTenancy`. -/
def hostTenancy : String := "host"

/-- `constructInstancePlacement`: availability zone (only when no explicit
subnet ID), placement group name/partition and tenancy; an entirely empty
placement is returned as `none`. -/
def constructInstancePlacement (machine : Machine)
    (machineProviderConfig : AWSMachineProviderConfig) :
    Except MachineError (Option Ec2Placement) :=
  let placement : Ec2Placement := ⟨none, none, none, none⟩
  let placement :=
    if machineProviderConfig.placement.availabilityZone != ""
        && machineProviderConfig.subnet.id.isNone then
      { placement with availabilityZone := some machineProviderConfig.placement.availabilityZone }
    else placement
  let placement :=
    if machineProviderConfig.placementGroupName != "" then
      { placement with
        groupName := some machineProviderConfig.placementGroupName
        partitionNumber := machineProviderConfig.placementGroupPartition }
    else placement
  let instanceTenancy := machineProviderConfig.placement.tenancy
  let withTenancy : Except MachineError Ec2Placement :=
    if instanceTenancy == "" then .ok placement
    else if (instanceTenancy == defaultTenancy || instanceTenancy == dedicatedTenancy
        || instanceTenancy == hostTenancy) then
      .ok { placement with tenancy := some instanceTenancy }
    else
      .error (.invalidConfiguration ("invalid instance tenancy: " ++ instanceTenancy ++
        ". Allowed options are: " ++ defaultTenancy ++ "," ++ dedicatedTenancy ++ "," ++ hostTenancy))
  match withTenancy with
  | .error e => .error e
  | .ok placement =>
    if placement == (⟨none, none, none, none⟩ : Ec2Placement) then .ok none
    else .ok (some placement)

/-- `machinev1beta1.MetadataServiceAuthenticationOptional`. -/
def metadataServiceAuthenticationOptional : String := "Optional"

/-- `machinev1beta1.MetadataServiceAuthenticationRequired`. -/
def metadataServiceAuthenticationRequired : String := "Required"

/-- `getInstanceMetadataOptionsRequest`: map the authentication policy to the
IMDS `HttpTokens` state, returning `none` when nothing was set. -/
def getInstanceMetadataOptionsRequest (providerConfig : AWSMachineProviderConfig) :
    Option InstanceMetadataOptionsRequest :=
  let imdsOptions : InstanceMetadataOptionsRequest :=
    if providerConfig.metadataServiceOptions.authentication
        == metadataServiceAuthenticationOptional then
      { httpTokens := some "optional" }
    else if providerConfig.metadataServiceOptions.authentication
        == metadataServiceAuthenticationRequired then
      { httpTokens := some "required" }
    else
      { httpTokens := none }
  if imdsOptions == ({ httpTokens := none } : InstanceMetadataOptionsRequest) then none
  else some imdsOptions

/-- `machinev1beta1.AWSENANetworkInterfaceType`. -/
def awsENANetworkInterfaceType : String := "ENA"

/-- `machinev1beta1.AWSEFANetworkInterfaceType`. -/
def awsEFANetworkInterfaceType : String := "EFA"

/-- The network-interface-type switch of `launchInstance` (ENA maps to
`interface`, EFA to `efa`, empty leaves the AWS default, anything else is an
invalid configuration), extracted as a function of the interface built so
far. -/
def applyNetworkInterfaceType (machineProviderConfig : AWSMachineProviderConfig)
    (networkInterface : InstanceNetworkInterfaceSpecification) :
    Except MachineError InstanceNetworkInterfaceSpecification :=
  if machineProviderConfig.networkInterfaceType == awsENANetworkInterfaceType then
    .ok { networkInterface with interfaceType := some "interface" }
  else if machineProviderConfig.networkInterfaceType == awsEFANetworkInterfaceType then
    .ok { networkInterface with interfaceType := some "efa" }
  else if machineProviderConfig.networkInterfaceType == "" then
    -- If the user did not specify the interface type, let AWS pick the default.
    .ok networkInterface
  else
    .error (.invalidConfiguration ("invalid value for networkInterfaceType \"" ++
      machineProviderConfig.networkInterfaceType ++
      "\", valid values are \"\", \"ENA\" and \"EFA\""))

/-- `launchInstance`: resolve AMI, security groups and subnet, build the
single network interface (carrier vs public IP by zone type), resolve block
device mappings, tags, IAM profile, placement, capacity reservation and market
options, then issue `RunInstances` and demand exactly one instance back.
4xx run failures surface as invalid configuration, others as create errors. -/
def launchInstance (lib : GoLib) (machine : Machine)
    (machineProviderConfig : AWSMachineProviderConfig) (userData : String)
    (awsClient : AwsClient) (infra : Option Infrastructure) :
    Except MachineError Ec2Instance :=
  let machineKey : MachineKey := ⟨machine.name, machine.nspace⟩
  match getAMI lib machineKey machineProviderConfig.ami awsClient with
  | .error err => .error (.invalidConfiguration ("error getting AMI: " ++ err.msg))
  | .ok amiID =>
  match getSecurityGroupsIDs machineProviderConfig.securityGroups awsClient with
  | .error err =>
    .error (.invalidConfiguration ("error getting security groups IDs: " ++ err.msg))
  | .ok securityGroupsIDs =>
  match getSubnetIDs machineKey machineProviderConfig.subnet
      machineProviderConfig.placement.availabilityZone awsClient with
  | .error err => .error (.invalidConfiguration ("error getting subnet IDs: " ++ err.msg))
  | .ok subnetIDs =>
  -- More than one subnet id returned only logs a warning; the first is used.
  -- (`getSubnetIDs` never returns an empty list on success.)
  let subnetID := subnetIDs.headD ""
  let networkInterface0 : InstanceNetworkInterfaceSpecification :=
    { deviceIndex := machineProviderConfig.deviceIndex
      subnetId := some subnetID
      groups := securityGroupsIDs
      associatePublicIpAddress := none
      associateCarrierIpAddress := none
      interfaceType := none }
  -- Public IP address assignment to instances created in Wavelength Zones'
  -- subnet requires AssociateCarrierIpAddress instead of
  -- AssociatePublicIpAddress; the two are mutually exclusive.
  let publicIPStep : Except MachineError InstanceNetworkInterfaceSpecification :=
    match machineProviderConfig.publicIP with
    | none => .ok networkInterface0
    | some publicIP =>
      match getAvalabilityZoneFromSubnetID subnetID awsClient with
      | .error err =>
        .error (.invalidConfiguration ("error discoverying zone type: " ++ err.msg))
      | .ok zoneName =>
      match getAvalabilityZoneTypeFromZoneName zoneName awsClient with
      | .error err =>
        .error (.invalidConfiguration ("error discoverying zone type: " ++ err.msg))
      | .ok zoneType =>
        if zoneType == zoneTypeWavelengthZone then
          .ok { networkInterface0 with associateCarrierIpAddress := some publicIP }
        else
          .ok { networkInterface0 with associatePublicIpAddress := some publicIP }
  match publicIPStep with
  | .error e => .error e
  | .ok networkInterface1 =>
  match applyNetworkInterfaceType machineProviderConfig networkInterface1 with
  | .error e => .error e
  | .ok networkInterface2 =>
  match getBlockDeviceMappings machineKey machineProviderConfig.blockDevices
      (amiID.getD "") awsClient with
  | .error err =>
    .error (.invalidConfiguration ("error getting blockDeviceMappings: " ++ err.msg))
  | .ok blockDeviceMappings =>
  match getClusterID machine with
  | (_, false) =>
    .error (.invalidConfiguration ("Unable to get cluster ID for machine: \"" ++
      machine.name ++ "\""))
  | (clusterID, true) =>
  let tagList := buildTagList machine.name clusterID machineProviderConfig.tags infra
  let tagInstance : Ec2TagSpecification := ⟨"instance", tagList⟩
  let tagVolume : Ec2TagSpecification := ⟨"volume", tagList⟩
  let userDataEnc := lib.base64Encode userData
  let iamInstanceProfile : Option IamInstanceProfileSpecification :=
    match machineProviderConfig.iamInstanceProfile with
    | some p =>
      match p.id with
      | some pid => some ⟨some pid⟩
      | none => none
    | none => none
  match constructInstancePlacement machine machineProviderConfig with
  | .error e => .error e
  | .ok placement =>
  match getCapacityReservationSpecification machineProviderConfig.capacityReservationID with
  | .error e => .error e
  | .ok capacityReservationSpecification =>
  match getInstanceMarketOptionsRequest machineProviderConfig with
  | .error e => .error e
  | .ok instanceMarketOptions =>
  let inputConfig : RunInstancesInput :=
    { imageId := amiID
      instanceType := machineProviderConfig.instanceType
      -- Only a single instance of the AWS instance allowed
      minCount := 1
      maxCount := 1
      keyName := machineProviderConfig.keyName
      iamInstanceProfile := iamInstanceProfile
      tagSpecifications := [tagInstance, tagVolume]
      networkInterfaces := [networkInterface2]
      userData := userDataEnc
      placement := placement
      metadataOptions := getInstanceMetadataOptionsRequest machineProviderConfig
      instanceMarketOptions := instanceMarketOptions
      capacityReservationSpecification := capacityReservationSpecification
      blockDeviceMappings := blockDeviceMappings }
  match awsClient.runInstances inputConfig with
  | .error err =>
    -- 4xx errors by convention signal client misconfiguration.
    if (match err.statusCode with
        | some code => stringsHasPref (toString code) "4"
        | none => false) then
      .error (.invalidConfiguration ("error launching instance: " ++ err.message))
    else
      .error (.createMachine ("error creating EC2 instance: " ++ err.message))
  | .ok runResult =>
    match runResult.instances with
    | [inst] => .ok inst
    | _ => .error (.createMachine "unexpected reservation creating instance")

theorem getAMI_runInstancesUpdate (lib : GoLib) (k : MachineKey) (ami : AWSResourceReference)
    (c : AwsClient) (f : RunInstancesInput → Except AwsError Reservation) :
    getAMI lib k ami { c with runInstances := f } = getAMI lib k ami c := rfl

theorem getSecurityGroupsIDsLoop_runInstancesUpdate (c : AwsClient)
    (f : RunInstancesInput → Except AwsError Reservation)
    (l : List AWSResourceReference) :
    getSecurityGroupsIDsLoop { c with runInstances := f } l =
      getSecurityGroupsIDsLoop c l := by
  induction l with
  | nil => rfl
  | cons g rest ih => simp only [getSecurityGroupsIDsLoop, ih]

theorem getSecurityGroupsIDs_runInstancesUpdate (sgs : List AWSResourceReference)
    (c : AwsClient) (f : RunInstancesInput → Except AwsError Reservation) :
    getSecurityGroupsIDs sgs { c with runInstances := f } = getSecurityGroupsIDs sgs c := by
  simp only [getSecurityGroupsIDs, getSecurityGroupsIDsLoop_runInstancesUpdate]

theorem getSubnetIDs_runInstancesUpdate (k : MachineKey) (subnet : AWSResourceReference)
    (az : String) (c : AwsClient) (f : RunInstancesInput → Except AwsError Reservation) :
    getSubnetIDs k subnet az { c with runInstances := f } = getSubnetIDs k subnet az c := rfl

theorem getAvalabilityZoneFromSubnetID_runInstancesUpdate (sid : String) (c : AwsClient)
    (f : RunInstancesInput → Except AwsError Reservation) :
    getAvalabilityZoneFromSubnetID sid { c with runInstances := f } =
      getAvalabilityZoneFromSubnetID sid c := rfl

theorem getAvalabilityZoneTypeFromZoneName_runInstancesUpdate (zn : String) (c : AwsClient)
    (f : RunInstancesInput → Except AwsError Reservation) :
    getAvalabilityZoneTypeFromZoneName zn { c with runInstances := f } =
      getAvalabilityZoneTypeFromZoneName zn c := rfl

theorem getBlockDeviceMappings_runInstancesUpdate (k : MachineKey)
    (specs : List BlockDeviceMappingSpec) (ami : String) (c : AwsClient)
    (f : RunInstancesInput → Except AwsError Reservation) :
    getBlockDeviceMappings k specs ami { c with runInstances := f } =
      getBlockDeviceMappings k specs ami c := rfl

/-- C10: every successful `launchInstance` run issued a `RunInstances` request
with MinCount and MaxCount 1 whose reservation held exactly one instance — the
returned one — and the whole function is unchanged when the client rejects any
request whose MinCount or MaxCount differs from 1, so no other request shape
is ever sent. -/
theorem launchInstance_single_instance (lib : GoLib) (machine : Machine)
    (cfg : AWSMachineProviderConfig) (userData : String) (client : AwsClient)
    (infra : Option Infrastructure) :
    (∀ inst, launchInstance lib machine cfg userData client infra = .ok inst →
      ∃ inp r, client.runInstances inp = .ok r ∧ inp.minCount = 1 ∧ inp.maxCount = 1 ∧
        r.instances = [inst]) ∧
    launchInstance lib machine cfg userData client infra =
      launchInstance lib machine cfg userData
        { client with runInstances := fun inp =>
            if inp.minCount == 1 && inp.maxCount == 1 then client.runInstances inp
            else .error ⟨none, "request with MinCount or MaxCount different from 1"⟩ }
        infra := by
  constructor
  · intro inst h
    simp only [launchInstance] at h
    repeat' split at h
    all_goals try (exact Except.noConfusion h)
    injection h with hinst
    subst hinst
    exact ⟨_, _, by assumption, rfl, rfl, by assumption⟩
  · simp [launchInstance, getAMI_runInstancesUpdate, getSecurityGroupsIDs_runInstancesUpdate,
      getSubnetIDs_runInstancesUpdate, getAvalabilityZoneFromSubnetID_runInstancesUpdate,
      getAvalabilityZoneTypeFromZoneName_runInstancesUpdate,
      getBlockDeviceMappings_runInstancesUpdate]

/-- Witness for C10: a concrete successful launch whose issued request is
recovered with MinCount = MaxCount = 1 and a single-instance reservation. -/
theorem launchInstance_single_instance_witness :
    ∃ inp r,
      (AwsClient.mk (fun _ => .ok ⟨[]⟩) (fun _ => .ok ⟨[]⟩)
        (fun _ => .ok ⟨[⟨some "subnet-1", some "zone-a"⟩]⟩)
        (fun _ => .ok ⟨[⟨some "availability-zone"⟩]⟩)
        (fun _ => .ok ⟨[⟨some "i-1"⟩]⟩)).runInstances inp = .ok r ∧
      inp.minCount = 1 ∧ inp.maxCount = 1 ∧ r.instances = [⟨some "i-1"⟩] :=
  (launchInstance_single_instance ⟨fun _ => none, fun s => s⟩ ⟨"m1", "ns", some "cid"⟩
    { ami := ⟨some "ami-1", none, none⟩
      instanceType := "m4.large"
      tags := []
      iamInstanceProfile := none
      keyName := none
      deviceIndex := 0
      publicIP := none
      networkInterfaceType := ""
      securityGroups := [⟨some "sg-1", none, none⟩]
      subnet := ⟨some "subnet-1", none, none⟩
      placement := ⟨"us-east-1", "", ""⟩
      blockDevices := []
      spotMarketOptions := none
      metadataServiceOptions := ⟨""⟩
      placementGroupName := ""
      placementGroupPartition := none
      capacityReservationID := ""
      marketType := "" }
    "userdata"
    { describeImages := fun _ => .ok ⟨[]⟩
      describeSecurityGroups := fun _ => .ok ⟨[]⟩
      describeSubnets := fun _ => .ok ⟨[⟨some "subnet-1", some "zone-a"⟩]⟩
      describeAvailabilityZones := fun _ => .ok ⟨[⟨some "availability-zone"⟩]⟩
      runInstances := fun _ => .ok ⟨[⟨some "i-1"⟩]⟩ }
    none).1 ⟨some "i-1"⟩ rfl

theorem applyNetworkInterfaceType_fields {cfg : AWSMachineProviderConfig}
    {ni ni2 : InstanceNetworkInterfaceSpecification}
    (h : applyNetworkInterfaceType cfg ni = .ok ni2) :
    ni2.associateCarrierIpAddress = ni.associateCarrierIpAddress ∧
    ni2.associatePublicIpAddress = ni.associatePublicIpAddress := by
  simp only [applyNetworkInterfaceType] at h
  repeat' split at h
  all_goals first
    | exact Except.noConfusion h
    | (injection h with h2
       subst h2
       exact ⟨rfl, rfl⟩)

/-- C4: when PublicIP is set, a successful `launchInstance` resolved the
subnet's zone name and then the zone type before building the single network
interface of the issued request; a `wavelength-zone` type produces
`AssociateCarrierIpAddress` equal to the PublicIP value with no
`AssociatePublicIpAddress`, any other type produces the opposite, so the two
attributes are never both set. -/
theorem launchInstance_wavelength (lib : GoLib) (machine : Machine)
    (cfg : AWSMachineProviderConfig) (userData : String) (client : AwsClient)
    (infra : Option Infrastructure) (b : Bool)
    (hpub : cfg.publicIP = some b) :
    ∀ inst, launchInstance lib machine cfg userData client infra = .ok inst →
    ∃ subnetIDs zoneName zoneType inp r,
      getSubnetIDs ⟨machine.name, machine.nspace⟩ cfg.subnet
        cfg.placement.availabilityZone client = .ok subnetIDs ∧
      getAvalabilityZoneFromSubnetID (subnetIDs.headD "") client = .ok zoneName ∧
      getAvalabilityZoneTypeFromZoneName zoneName client = .ok zoneType ∧
      client.runInstances inp = .ok r ∧ r.instances = [inst] ∧
      inp.networkInterfaces.length = 1 ∧
      ∀ ni ∈ inp.networkInterfaces,
        (zoneType = zoneTypeWavelengthZone →
          ni.associateCarrierIpAddress = some b ∧ ni.associatePublicIpAddress = none) ∧
        (zoneType ≠ zoneTypeWavelengthZone →
          ni.associatePublicIpAddress = some b ∧ ni.associateCarrierIpAddress = none) := by
  intro inst h
  simp only [launchInstance, hpub] at h
  cases hAMI : getAMI lib ⟨machine.name, machine.nspace⟩ cfg.ami client with
  | error e => simp only [hAMI] at h; exact Except.noConfusion h
  | ok amiID =>
  simp only [hAMI] at h
  cases hSG : getSecurityGroupsIDs cfg.securityGroups client with
  | error e => simp only [hSG] at h; exact Except.noConfusion h
  | ok sgIDs =>
  simp only [hSG] at h
  cases hSub : getSubnetIDs ⟨machine.name, machine.nspace⟩ cfg.subnet
      cfg.placement.availabilityZone client with
  | error e => simp only [hSub] at h; exact Except.noConfusion h
  | ok subnetIDs =>
  simp only [hSub] at h
  cases hZN : getAvalabilityZoneFromSubnetID (subnetIDs.headD "") client with
  | error e => simp only [hZN] at h; exact Except.noConfusion h
  | ok zoneName =>
  simp only [hZN] at h
  cases hZT : getAvalabilityZoneTypeFromZoneName zoneName client with
  | error e => simp only [hZT] at h; exact Except.noConfusion h
  | ok zoneType =>
  simp only [hZT] at h
  by_cases hwl : (zoneType == zoneTypeWavelengthZone) = true
  · simp only [hwl, if_true] at h
    repeat' split at h
    all_goals try (exact Except.noConfusion h)
    all_goals (
      injection h with hinst
      subst hinst
      have hfields := applyNetworkInterfaceType_fields (by assumption)
      exact ⟨subnetIDs, zoneName, zoneType, _, _, by rfl, by exact hZN, by exact hZT,
        by assumption, by assumption, by simp,
        by (intro ni hni
            simp only [List.mem_singleton] at hni
            subst hni
            refine ⟨fun _ => ⟨?_, ?_⟩, fun hnz => absurd (beq_iff_eq.mp hwl) hnz⟩
            · rw [hfields.1]
            · rw [hfields.2])⟩)
  · have hwl' : (zoneType == zoneTypeWavelengthZone) = false := by
      cases hcase : zoneType == zoneTypeWavelengthZone
      · rfl
      · exact absurd hcase hwl
    have hne : zoneType ≠ zoneTypeWavelengthZone := beq_eq_false_iff_ne.mp hwl'
    simp only [hwl', Bool.false_eq_true, if_false] at h
    repeat' split at h
    all_goals try (exact Except.noConfusion h)
    all_goals (
      injection h with hinst
      subst hinst
      have hfields := applyNetworkInterfaceType_fields (by assumption)
      exact ⟨subnetIDs, zoneName, zoneType, _, _, by rfl, by exact hZN, by exact hZT,
        by assumption, by assumption, by simp,
        by (intro ni hni
            simp only [List.mem_singleton] at hni
            subst hni
            refine ⟨fun hz => absurd hz hne, fun _ => ⟨?_, ?_⟩⟩
            · rw [hfields.2]
            · rw [hfields.1])⟩)

/-- Witness for C4: a concrete launch into a wavelength zone with PublicIP
set resolves the zone chain and carries only the carrier-IP attribute. -/
theorem launchInstance_wavelength_witness :
    ∃ subnetIDs zoneName zoneType inp r,
      getSubnetIDs ⟨"m1", "ns"⟩ ⟨some "subnet-1", none, none⟩ ""
        (AwsClient.mk (fun _ => .ok ⟨[]⟩) (fun _ => .ok ⟨[]⟩)
          (fun _ => .ok ⟨[⟨some "subnet-1", some "zone-a"⟩]⟩)
          (fun _ => .ok ⟨[⟨some "wavelength-zone"⟩]⟩)
          (fun _ => .ok ⟨[⟨some "i-1"⟩]⟩)) = .ok subnetIDs ∧
      getAvalabilityZoneFromSubnetID (subnetIDs.headD "")
        (AwsClient.mk (fun _ => .ok ⟨[]⟩) (fun _ => .ok ⟨[]⟩)
          (fun _ => .ok ⟨[⟨some "subnet-1", some "zone-a"⟩]⟩)
          (fun _ => .ok ⟨[⟨some "wavelength-zone"⟩]⟩)
          (fun _ => .ok ⟨[⟨some "i-1"⟩]⟩)) = .ok zoneName ∧
      getAvalabilityZoneTypeFromZoneName zoneName
        (AwsClient.mk (fun _ => .ok ⟨[]⟩) (fun _ => .ok ⟨[]⟩)
          (fun _ => .ok ⟨[⟨some "subnet-1", some "zone-a"⟩]⟩)
          (fun _ => .ok ⟨[⟨some "wavelength-zone"⟩]⟩)
          (fun _ => .ok ⟨[⟨some "i-1"⟩]⟩)) = .ok zoneType ∧
      (AwsClient.mk (fun _ => .ok ⟨[]⟩) (fun _ => .ok ⟨[]⟩)
        (fun _ => .ok ⟨[⟨some "subnet-1", some "zone-a"⟩]⟩)
        (fun _ => .ok ⟨[⟨some "wavelength-zone"⟩]⟩)
        (fun _ => .ok ⟨[⟨some "i-1"⟩]⟩)).runInstances inp = .ok r ∧
      r.instances = [⟨some "i-1"⟩] ∧
      inp.networkInterfaces.length = 1 ∧
      ∀ ni ∈ inp.networkInterfaces,
        (zoneType = zoneTypeWavelengthZone →
          ni.associateCarrierIpAddress = some true ∧ ni.associatePublicIpAddress = none) ∧
        (zoneType ≠ zoneTypeWavelengthZone →
          ni.associatePublicIpAddress = some true ∧ ni.associateCarrierIpAddress = none) :=
  launchInstance_wavelength ⟨fun _ => none, fun s => s⟩ ⟨"m1", "ns", some "cid"⟩
    { ami := ⟨some "ami-1", none, none⟩
      instanceType := "m4.large"
      tags := []
      iamInstanceProfile := none
      keyName := none
      deviceIndex := 0
      publicIP := some true
      networkInterfaceType := ""
      securityGroups := [⟨some "sg-1", none, none⟩]
      subnet := ⟨some "subnet-1", none, none⟩
      placement := ⟨"us-east-1", "", ""⟩
      blockDevices := []
      spotMarketOptions := none
      metadataServiceOptions := ⟨""⟩
      placementGroupName := ""
      placementGroupPartition := none
      capacityReservationID := ""
      marketType := "" }
    "userdata"
    (AwsClient.mk (fun _ => .ok ⟨[]⟩) (fun _ => .ok ⟨[]⟩)
      (fun _ => .ok ⟨[⟨some "subnet-1", some "zone-a"⟩]⟩)
      (fun _ => .ok ⟨[⟨some "wavelength-zone"⟩]⟩)
      (fun _ => .ok ⟨[⟨some "i-1"⟩]⟩))
    none true rfl ⟨some "i-1"⟩ rfl

end AwsProvider
